import Mathlib

/-!
# CloudCore configuration schema (cloudcore/v1alpha1/types.go)

The source file declares struct types only.  It is embedded twice:

* as data (`FieldDecl`, `StructDecl`): the declared field names, Go types, JSON
  tags and `+Required` markers, one entry per struct field, in source order;
* as Lean structures (`CloudCoreConfig`, `CloudHub`, ...), with Go pointers as
  `Option`, `int32`/`int`/`time.Duration` as `Int`, `uint32` as `Nat`.

The runtime components that the configuration parametrises (connection
registry, authorization gate, dispatch queues) are not part of the source
file; they are modelled from the specification.
-/

namespace CloudCore

/-! ## The declarations as data -/

/-- One struct field declaration: Go name, Go type, the key and the
`omitempty` option of its `json` tag, and whether a `+Required` marker
precedes it. -/
structure FieldDecl where
  name : String
  goType : String
  jsonKey : String
  omitempty : Bool
  required : Bool
  deriving DecidableEq, Repr

/-- A struct type declaration. -/
structure StructDecl where
  name : String
  fields : List FieldDecl
  deriving DecidableEq, Repr

/-- Field with tag `json:"key,omitempty"`. -/
def opt (name goType key : String) : FieldDecl := ⟨name, goType, key, true, false⟩

/-- Field with tag `json:"key"`. -/
def req (name goType key : String) : FieldDecl := ⟨name, goType, key, false, false⟩

/-- Mark a field as preceded by `+Required`. -/
def FieldDecl.marked (f : FieldDecl) : FieldDecl := ⟨f.name, f.goType, f.jsonKey, f.omitempty, true⟩

def declCloudCoreConfig : StructDecl := ⟨"CloudCoreConfig", [
  (opt "CommonConfig" "*CommonConfig" "commonConfig").marked,
  (opt "KubeAPIConfig" "*KubeAPIConfig" "kubeAPIConfig").marked,
  (opt "Modules" "*Modules" "modules").marked,
  opt "FeatureGates" "map[string]bool" "featureGates"]⟩

def declCommonConfig : StructDecl := ⟨"CommonConfig", [
  opt "TunnelPort" "int" "tunnelPort",
  opt "MonitorServer" "MonitorServer" "monitorServer"]⟩

def declMonitorServer : StructDecl := ⟨"MonitorServer", [
  opt "BindAddress" "string" "bindAddress",
  opt "EnableProfiling" "bool" "enableProfiling"]⟩

def declKubeAPIConfig : StructDecl := ⟨"KubeAPIConfig", [
  req "Master" "string" "master",
  opt "ContentType" "string" "contentType",
  opt "QPS" "int32" "qps",
  opt "Burst" "int32" "burst",
  (req "KubeConfig" "string" "kubeConfig").marked]⟩

def declModules : StructDecl := ⟨"Modules", [
  opt "CloudHub" "*CloudHub" "cloudHub",
  opt "EdgeController" "*EdgeController" "edgeController",
  opt "DeviceController" "*DeviceController" "deviceController",
  opt "TaskManager" "*TaskManager" "taskManager",
  opt "SyncController" "*SyncController" "syncController",
  opt "DynamicController" "*DynamicController" "dynamicController",
  opt "CloudStream" "*CloudStream" "cloudStream",
  opt "Router" "*Router" "router",
  opt "IptablesManager" "*IptablesManager" "iptablesManager"]⟩

def declCloudHub : StructDecl := ⟨"CloudHub", [
  req "Enable" "bool" "enable",
  opt "KeepaliveInterval" "int32" "keepaliveInterval",
  opt "NodeLimit" "int32" "nodeLimit",
  opt "TLSCAFile" "string" "tlsCAFile",
  opt "TLSCAKeyFile" "string" "tlsCAKeyFile",
  opt "TLSCertFile" "string" "tlsCertFile",
  opt "TLSPrivateKeyFile" "string" "tlsPrivateKeyFile",
  opt "WriteTimeout" "int32" "writeTimeout",
  opt "Quic" "*CloudHubQUIC" "quic",
  opt "UnixSocket" "*CloudHubUnixSocket" "unixsocket",
  (opt "WebSocket" "*CloudHubWebSocket" "websocket").marked,
  (opt "HTTPS" "*CloudHubHTTPS" "https").marked,
  opt "AdvertiseAddress" "[]string" "advertiseAddress",
  opt "DNSNames" "[]string" "dnsNames",
  opt "EdgeCertSigningDuration" "time.Duration" "edgeCertSigningDuration",
  opt "TokenRefreshDuration" "time.Duration" "tokenRefreshDuration",
  opt "Authorization" "*CloudHubAuthorization" "authorization"]⟩

def declCloudHubQUIC : StructDecl := ⟨"CloudHubQUIC", [
  req "Enable" "bool" "enable",
  opt "Address" "string" "address",
  opt "Port" "uint32" "port",
  opt "MaxIncomingStreams" "int32" "maxIncomingStreams"]⟩

def declCloudHubUnixSocket : StructDecl := ⟨"CloudHubUnixSocket", [
  req "Enable" "bool" "enable",
  opt "Address" "string" "address"]⟩

def declCloudHubWebSocket : StructDecl := ⟨"CloudHubWebSocket", [
  req "Enable" "bool" "enable",
  opt "Address" "string" "address",
  opt "Port" "uint32" "port"]⟩

def declCloudHubHTTPS : StructDecl := ⟨"CloudHubHTTPS", [
  req "Enable" "bool" "enable",
  opt "Address" "string" "address",
  opt "Port" "uint32" "port"]⟩

def declCloudHubAuthorization : StructDecl := ⟨"CloudHubAuthorization", [
  req "Enable" "bool" "enable",
  req "Debug" "bool" "debug",
  req "Modes" "[]AuthorizationMode" "modes"]⟩

def declAuthorizationMode : StructDecl := ⟨"AuthorizationMode", [
  opt "Node" "*NodeAuthorization" "node"]⟩

def declNodeAuthorization : StructDecl := ⟨"NodeAuthorization", [
  req "Enable" "bool" "enable"]⟩

def declEdgeController : StructDecl := ⟨"EdgeController", [
  req "Enable" "bool" "enable",
  opt "NodeUpdateFrequency" "int32" "nodeUpdateFrequency",
  opt "Buffer" "*EdgeControllerBuffer" "buffer",
  opt "Load" "*EdgeControllerLoad" "load"]⟩

def declEdgeControllerBuffer : StructDecl := ⟨"EdgeControllerBuffer", [
  opt "ProcessEvent" "int32" "processEvent",
  opt "UpdatePodStatus" "int32" "updatePodStatus",
  opt "UpdateNodeStatus" "int32" "updateNodeStatus",
  opt "QueryConfigMap" "int32" "queryConfigMap",
  opt "QuerySecret" "int32" "querySecret",
  opt "PodEvent" "int32" "podEvent",
  opt "ConfigMapEvent" "int32" "configMapEvent",
  opt "SecretEvent" "int32" "secretEvent",
  opt "RulesEvent" "int32" "rulesEvent",
  opt "RuleEndpointsEvent" "int32" "ruleEndpointsEvent",
  opt "QueryPersistentVolume" "int32" "queryPersistentVolume",
  opt "QueryPersistentVolumeClaim" "int32" "queryPersistentVolumeClaim",
  opt "QueryVolumeAttachment" "int32" "queryVolumeAttachment",
  opt "CreateNode" "int32" "createNode",
  opt "PatchNode" "int32" "patchNode",
  opt "QueryNode" "int32" "queryNode",
  opt "UpdateNode" "int32" "updateNode",
  opt "PatchPod" "int32" "patchPod",
  opt "DeletePod" "int32" "deletePod",
  opt "CreateLease" "int32" "createLease",
  opt "QueryLease" "int32" "queryLease",
  opt "ServiceAccountToken" "int32" "serviceAccountToken",
  opt "CreatePod" "int32" "createPod",
  opt "CertificateSigningRequest" "int32" "certificateSigningRequest"]⟩

def declEdgeControllerLoad : StructDecl := ⟨"EdgeControllerLoad", [
  opt "ProcessEventWorkers" "int32" "processEventWorkers",
  opt "UpdatePodStatusWorkers" "int32" "updatePodStatusWorkers",
  opt "UpdateNodeStatusWorkers" "int32" "updateNodeStatusWorkers",
  opt "QueryConfigMapWorkers" "int32" "queryConfigMapWorkers",
  opt "QuerySecretWorkers" "int32" "querySecretWorkers",
  opt "QueryPersistentVolumeWorkers" "int32" "queryPersistentVolumeWorkers",
  opt "QueryPersistentVolumeClaimWorkers" "int32" "queryPersistentVolumeClaimWorkers",
  opt "QueryVolumeAttachmentWorkers" "int32" "queryVolumeAttachmentWorkers",
  opt "CreateNodeWorkers" "int32" "createNodeWorkers",
  opt "PatchNodeWorkers" "int32" "patchNodeWorkers",
  opt "QueryNodeWorkers" "int32" "queryNodeWorkers",
  opt "UpdateNodeWorkers" "int32" "updateNodeWorkers",
  opt "PatchPodWorkers" "int32" "patchPodWorkers",
  opt "DeletePodWorkers" "int32" "deletePodWorkers",
  opt "CreateLeaseWorkers" "int32" "createLeaseWorkers",
  opt "QueryLeaseWorkers" "int32" "queryLeaseWorkers",
  opt "UpdateRuleStatusWorkers" "int32" "UpdateRuleStatusWorkers",
  opt "ServiceAccountTokenWorkers" "int32" "ServiceAccountTokenWorkers",
  opt "CreatePodWorks" "int32" "CreatePodWorks",
  opt "CertificateSigningRequestWorkers" "int32" "certificateSigningRequestWorkers"]⟩

def declDeviceController : StructDecl := ⟨"DeviceController", [
  req "Enable" "bool" "enable",
  opt "Buffer" "*DeviceControllerBuffer" "buffer",
  opt "Load" "*DeviceControllerLoad" "load"]⟩

def declDeviceControllerBuffer : StructDecl := ⟨"DeviceControllerBuffer", [
  opt "UpdateDeviceTwins" "int32" "updateDeviceTwins",
  opt "UpdateDeviceStates" "int32" "updateDeviceStatus",
  opt "DeviceEvent" "int32" "deviceEvent",
  opt "DeviceModelEvent" "int32" "deviceModelEvent"]⟩

def declDeviceControllerLoad : StructDecl := ⟨"DeviceControllerLoad", [
  opt "UpdateDeviceStatusWorkers" "int32" "updateDeviceStatusWorkers"]⟩

def declTaskManager : StructDecl := ⟨"TaskManager", [
  req "Enable" "bool" "enable",
  opt "Buffer" "*TaskManagerBuffer" "buffer",
  opt "Load" "*TaskManagerLoad" "load"]⟩

def declTaskManagerBuffer : StructDecl := ⟨"TaskManagerBuffer", [
  opt "TaskStatus" "int32" "taskStatus",
  opt "TaskEvent" "int32" "taskEvent"]⟩

def declTaskManagerLoad : StructDecl := ⟨"TaskManagerLoad", [
  opt "TaskWorkers" "int32" "taskWorkers"]⟩

def declImagePrePullController : StructDecl := ⟨"ImagePrePullController", [
  req "Enable" "bool" "enable",
  opt "Buffer" "*ImagePrePullControllerBuffer" "buffer",
  opt "Load" "*ImagePrePullControllerLoad" "load"]⟩

def declImagePrePullControllerBuffer : StructDecl := ⟨"ImagePrePullControllerBuffer", [
  opt "ImagePrePullJobStatus" "int32" "imagePrePullJobStatus",
  opt "ImagePrePullJobEvent" "int32" "imagePrePullJobEvent"]⟩

def declImagePrePullControllerLoad : StructDecl := ⟨"ImagePrePullControllerLoad", [
  opt "ImagePrePullJobWorkers" "int32" "imagePrePullJobWorkers"]⟩

def declSyncController : StructDecl := ⟨"SyncController", [
  req "Enable" "bool" "enable"]⟩

def declDynamicController : StructDecl := ⟨"DynamicController", [
  req "Enable" "bool" "enable"]⟩

def declCloudStream : StructDecl := ⟨"CloudStream", [
  req "Enable" "bool" "enable",
  opt "TLSTunnelCAFile" "string" "tlsTunnelCAFile",
  opt "TLSTunnelCertFile" "string" "tlsTunnelCertFile",
  opt "TLSTunnelPrivateKeyFile" "string" "tlsTunnelPrivateKeyFile",
  opt "TunnelPort" "uint32" "tunnelPort",
  opt "TLSStreamCAFile" "string" "tlsStreamCAFile",
  opt "TLSStreamCertFile" "string" "tlsStreamCertFile",
  opt "TLSStreamPrivateKeyFile" "string" "tlsStreamPrivateKeyFile",
  opt "StreamPort" "uint32" "streamPort"]⟩

def declRouter : StructDecl := ⟨"Router", [
  req "Enable" "bool" "enable",
  opt "Address" "string" "address",
  opt "Port" "uint32" "port",
  opt "RestTimeout" "uint32" "restTimeout"]⟩

def declIptablesManager : StructDecl := ⟨"IptablesManager", [
  req "Enable" "bool" "enable",
  opt "Mode" "IptablesMgrMode" "mode"]⟩

/-- Every struct type declared in the file, in source order. -/
def schema : List StructDecl := [
  declCloudCoreConfig, declCommonConfig, declMonitorServer, declKubeAPIConfig,
  declModules, declCloudHub, declCloudHubQUIC, declCloudHubUnixSocket,
  declCloudHubWebSocket, declCloudHubHTTPS, declCloudHubAuthorization,
  declAuthorizationMode, declNodeAuthorization, declEdgeController,
  declEdgeControllerBuffer, declEdgeControllerLoad, declDeviceController,
  declDeviceControllerBuffer, declDeviceControllerLoad, declTaskManager,
  declTaskManagerBuffer, declTaskManagerLoad, declImagePrePullController,
  declImagePrePullControllerBuffer, declImagePrePullControllerLoad,
  declSyncController, declDynamicController, declCloudStream, declRouter,
  declIptablesManager]

/-- Go names of the fields of a struct declaration. -/
def StructDecl.fieldNames (s : StructDecl) : List String := s.fields.map FieldDecl.name

/-! ### Capacity fields and worker-count fields -/

/-- The worker-count field `F` of a Load struct belongs to the operation kind
`K` of the Buffer struct: its name is `K` followed by `Workers` (or by `Works`,
the spelling of `CreatePodWorks`). -/
def isWorkerFieldFor (K F : String) : Bool :=
  F == K ++ "Workers" || F == K ++ "Works"

/-- The worker-count fields of `load` that belong to kind `K`. -/
def workerFieldsOf (load : StructDecl) (K : String) : List String :=
  load.fieldNames.filter (isWorkerFieldFor K)

/-- The capacity fields of `buffer` that the worker-count field `F` belongs to. -/
def kindsOf (buffer : StructDecl) (F : String) : List String :=
  buffer.fieldNames.filter (fun K => isWorkerFieldFor K F)

/-! ## The declarations as Lean types

Pointers are `Option` (`none` is `nil`), slices are lists, the map
`FeatureGates` is an association list. -/

/-- The embedded `metav1.TypeMeta` (declared in k8s.io/apimachinery). -/
structure TypeMeta where
  Kind : String
  APIVersion : String

structure MonitorServer where
  BindAddress : String
  EnableProfiling : Bool

structure CommonConfig where
  TunnelPort : Int
  MonitorServer : MonitorServer

structure KubeAPIConfig where
  Master : String
  ContentType : String
  QPS : Int
  Burst : Int
  KubeConfig : String

structure CloudHubQUIC where
  Enable : Bool
  Address : String
  Port : Nat
  MaxIncomingStreams : Int

structure CloudHubUnixSocket where
  Enable : Bool
  Address : String

structure CloudHubWebSocket where
  Enable : Bool
  Address : String
  Port : Nat

structure CloudHubHTTPS where
  Enable : Bool
  Address : String
  Port : Nat

structure NodeAuthorization where
  Enable : Bool

structure AuthorizationMode where
  Node : Option NodeAuthorization

structure CloudHubAuthorization where
  Enable : Bool
  Debug : Bool
  Modes : List AuthorizationMode

structure CloudHub where
  Enable : Bool
  KeepaliveInterval : Int
  NodeLimit : Int
  TLSCAFile : String
  TLSCAKeyFile : String
  TLSCertFile : String
  TLSPrivateKeyFile : String
  WriteTimeout : Int
  Quic : Option CloudHubQUIC
  UnixSocket : Option CloudHubUnixSocket
  WebSocket : Option CloudHubWebSocket
  HTTPS : Option CloudHubHTTPS
  AdvertiseAddress : List String
  DNSNames : List String
  EdgeCertSigningDuration : Int
  TokenRefreshDuration : Int
  Authorization : Option CloudHubAuthorization

structure EdgeControllerBuffer where
  ProcessEvent : Int
  UpdatePodStatus : Int
  UpdateNodeStatus : Int
  QueryConfigMap : Int
  QuerySecret : Int
  PodEvent : Int
  ConfigMapEvent : Int
  SecretEvent : Int
  RulesEvent : Int
  RuleEndpointsEvent : Int
  QueryPersistentVolume : Int
  QueryPersistentVolumeClaim : Int
  QueryVolumeAttachment : Int
  CreateNode : Int
  PatchNode : Int
  QueryNode : Int
  UpdateNode : Int
  PatchPod : Int
  DeletePod : Int
  CreateLease : Int
  QueryLease : Int
  ServiceAccountToken : Int
  CreatePod : Int
  CertificateSigningRequest : Int

structure EdgeControllerLoad where
  ProcessEventWorkers : Int
  UpdatePodStatusWorkers : Int
  UpdateNodeStatusWorkers : Int
  QueryConfigMapWorkers : Int
  QuerySecretWorkers : Int
  QueryPersistentVolumeWorkers : Int
  QueryPersistentVolumeClaimWorkers : Int
  QueryVolumeAttachmentWorkers : Int
  CreateNodeWorkers : Int
  PatchNodeWorkers : Int
  QueryNodeWorkers : Int
  UpdateNodeWorkers : Int
  PatchPodWorkers : Int
  DeletePodWorkers : Int
  CreateLeaseWorkers : Int
  QueryLeaseWorkers : Int
  UpdateRuleStatusWorkers : Int
  ServiceAccountTokenWorkers : Int
  CreatePodWorks : Int
  CertificateSigningRequestWorkers : Int

structure EdgeController where
  Enable : Bool
  NodeUpdateFrequency : Int
  Buffer : Option EdgeControllerBuffer
  Load : Option EdgeControllerLoad

structure DeviceControllerBuffer where
  UpdateDeviceTwins : Int
  UpdateDeviceStates : Int
  DeviceEvent : Int
  DeviceModelEvent : Int

structure DeviceControllerLoad where
  UpdateDeviceStatusWorkers : Int

structure DeviceController where
  Enable : Bool
  Buffer : Option DeviceControllerBuffer
  Load : Option DeviceControllerLoad

structure TaskManagerBuffer where
  TaskStatus : Int
  TaskEvent : Int

structure TaskManagerLoad where
  TaskWorkers : Int

structure TaskManager where
  Enable : Bool
  Buffer : Option TaskManagerBuffer
  Load : Option TaskManagerLoad

structure SyncController where
  Enable : Bool

structure DynamicController where
  Enable : Bool

structure CloudStream where
  Enable : Bool
  TLSTunnelCAFile : String
  TLSTunnelCertFile : String
  TLSTunnelPrivateKeyFile : String
  TunnelPort : Nat
  TLSStreamCAFile : String
  TLSStreamCertFile : String
  TLSStreamPrivateKeyFile : String
  StreamPort : Nat

structure Router where
  Enable : Bool
  Address : String
  Port : Nat
  RestTimeout : Nat

/-- The field `Mode` has the string type `IptablesMgrMode`, declared elsewhere
in the package. -/
structure IptablesManager where
  Enable : Bool
  Mode : String

structure Modules where
  CloudHub : Option CloudHub
  EdgeController : Option EdgeController
  DeviceController : Option DeviceController
  TaskManager : Option TaskManager
  SyncController : Option SyncController
  DynamicController : Option DynamicController
  CloudStream : Option CloudStream
  Router : Option Router
  IptablesManager : Option IptablesManager

structure CloudCoreConfig where
  TypeMeta : TypeMeta
  CommonConfig : Option CommonConfig
  KubeAPIConfig : Option KubeAPIConfig
  Modules : Option Modules
  FeatureGates : List (String × Bool)

/-! ### Zero values -/

/-- The Go zero value of `CloudHub`: every pointer nil, every scalar zero. -/
def CloudHub.zero : CloudHub :=
  ⟨false, 0, 0, "", "", "", "", 0, none, none, none, none, [], [], 0, 0, none⟩

/-- The Go zero value of `Modules`. -/
def Modules.zero : Modules := ⟨none, none, none, none, none, none, none, none, none⟩

/-- The Go zero value of `CloudCoreConfig`. -/
def CloudCoreConfig.zero : CloudCoreConfig := ⟨⟨"", ""⟩, none, none, none, []⟩

/-- The Go zero value of `KubeAPIConfig`. -/
def KubeAPIConfig.zero : KubeAPIConfig := ⟨"", "", 0, 0, ""⟩

/-- The Go zero value of `CloudStream`. -/
def CloudStream.zero : CloudStream := ⟨false, "", "", "", 0, "", "", "", 0⟩

/-! ## Connection registry -/

/-- Transport kind of an edge session. -/
inductive TransportKind where
  | websocket
  | quic
  | unix
  | https
  deriving DecidableEq, Repr

/-- Modelled from the spec: the EdgeSession record of the data model (node
identity, transport kind, connection handle); the registry code is not part
of the source file. -/
structure EdgeSession where
  identity : String
  transport : TransportKind
  handle : Nat
  deriving DecidableEq, Repr

/-- Errors of the connection registry. -/
inductive RegistryError where
  | NodeLimitExceeded
  deriving DecidableEq, Repr

/-- Modelled from the spec: the Connection Registry with its NodeLimit
counter (the registry code is not part of the source file).  `ceiling` is the
configured node ceiling, `count` the process-wide counter of active sessions,
`live` the live sessions, `closed` the sessions closed so far, latest first. -/
structure Registry where
  ceiling : Nat
  count : Nat
  live : List EdgeSession
  closed : List EdgeSession
  deriving DecidableEq, Repr

/-- Modelled from the spec: a registry with no session, for a given ceiling. -/
def Registry.empty (ceiling : Nat) : Registry := ⟨ceiling, 0, [], []⟩

/-- Modelled from the spec: eviction closes the session and decrements the
counter; evicting a session that is not live is a no-op. -/
def Registry.evict (r : Registry) (s : EdgeSession) : Registry :=
  if s ∈ r.live then
    { r with live := r.live.erase s, closed := s :: r.closed, count := r.count - 1 }
  else r

/-- The live session of a node identity, if any. -/
def Registry.sessionOf (r : Registry) (identity : String) : Option EdgeSession :=
  r.live.find? (fun s => s.identity == identity)

/-- Modelled from the spec: an existing session of the identity is closed
(superseded) before a new one is created. -/
def Registry.closePrior (r : Registry) (identity : String) : Registry :=
  match r.sessionOf identity with
  | some old => r.evict old
  | none => r

/-- Modelled from the spec: `Admit(identity, transport, handle)`.  Admission
fails when the counter equals the ceiling; otherwise an existing session of
the identity is closed before the new one is created and counted. -/
def Registry.Admit (r : Registry) (identity : String) (t : TransportKind) (h : Nat) :
    Except RegistryError (Registry × EdgeSession) :=
  if r.count == r.ceiling then .error RegistryError.NodeLimitExceeded
  else
    let r1 := r.closePrior identity
    let s : EdgeSession := ⟨identity, t, h⟩
    .ok ({ r1 with live := s :: r1.live, count := r1.count + 1 }, s)

/-- An operation on the registry. -/
inductive RegistryOp where
  | Admit (identity : String) (t : TransportKind) (h : Nat)
  | evict (s : EdgeSession)
  deriving DecidableEq, Repr

/-- The registry after one operation; a refused admission leaves it as it was. -/
def Registry.step (r : Registry) : RegistryOp → Registry
  | .Admit i t h =>
    match r.Admit i t h with
    | .ok (r1, _) => r1
    | .error _ => r
  | .evict s => r.evict s

/-- The registry after a sequence of operations. -/
def Registry.run (r : Registry) (ops : List RegistryOp) : Registry := ops.foldl Registry.step r

/-- The live sessions of one node identity. -/
def Registry.liveFor (r : Registry) (identity : String) : List EdgeSession :=
  r.live.filter (fun s => s.identity == identity)

/-- Whether an admission attempt is refused with `NodeLimitExceeded`. -/
def Registry.refuses (r : Registry) (identity : String) (t : TransportKind) (h : Nat) : Bool :=
  match r.Admit identity t h with
  | .error RegistryError.NodeLimitExceeded => true
  | .ok _ => false

/-- Registry invariant: the counter is the number of live sessions, it is at
most the ceiling, and live sessions have pairwise distinct identities. -/
def Registry.Inv (r : Registry) : Prop :=
  r.count = r.live.length ∧ r.count ≤ r.ceiling ∧ (r.live.map EdgeSession.identity).Nodup

/-! ### The order of the ceiling check and the close of the prior session

The spec says both that admission fails when the count equals the ceiling and
that a reconnect always supersedes; it does not say whether the ceiling is
checked before or after the prior session of the identity is closed.
`Registry.Admit` checks first; `Registry.AdmitClosingFirst` closes first. -/

/-- Modelled from the spec: `Admit(identity, transport, handle)` with the
prior session of the identity closed before the counter is compared with the
ceiling. -/
def Registry.AdmitClosingFirst (r : Registry) (identity : String) (t : TransportKind) (h : Nat) :
    Except RegistryError (Registry × EdgeSession) :=
  let r1 := r.closePrior identity
  if r1.count == r1.ceiling then .error RegistryError.NodeLimitExceeded
  else
    let s : EdgeSession := ⟨identity, t, h⟩
    .ok ({ r1 with live := s :: r1.live, count := r1.count + 1 }, s)

/-- The two orders the spec leaves open. -/
inductive AdmitOrder where
  | checkFirst
  | closeFirst
  deriving DecidableEq, Repr

/-- Admission under a given order. -/
def Registry.AdmitWith (o : AdmitOrder) (r : Registry) (identity : String) (t : TransportKind)
    (h : Nat) : Except RegistryError (Registry × EdgeSession) :=
  match o with
  | .checkFirst => r.Admit identity t h
  | .closeFirst => r.AdmitClosingFirst identity t h

/-- The registry after one operation under a given order; a refused admission
leaves it as it was. -/
def Registry.stepWith (o : AdmitOrder) (r : Registry) : RegistryOp → Registry
  | .Admit i t h =>
    match r.AdmitWith o i t h with
    | .ok (r1, _) => r1
    | .error _ => r
  | .evict s => r.evict s

/-- The registry after a sequence of operations under a given order. -/
def Registry.runWith (o : AdmitOrder) (r : Registry) (ops : List RegistryOp) : Registry :=
  ops.foldl (Registry.stepWith o) r

/-! ## Authorization gate -/

/-- Modelled from the spec: the AuthorizationDecision values of the data
model. -/
inductive AuthorizationDecision where
  | Allow
  | Deny
  | AllowWithWarning
  deriving DecidableEq, Repr

/-- Modelled from the spec: node authorization mode; when enabled, the
certificate-derived identity must equal the claimed node name. -/
def nodeAuthorize (m : NodeAuthorization) (certIdentity claimed : String) : AuthorizationDecision :=
  if m.Enable then
    if certIdentity == claimed then AuthorizationDecision.Allow else AuthorizationDecision.Deny
  else AuthorizationDecision.Allow

/-- Modelled from the spec: one configured mode; a mode without node
authorization has nothing to check. -/
def evalMode (m : AuthorizationMode) (certIdentity claimed : String) : AuthorizationDecision :=
  match m.Node with
  | some n => nodeAuthorize n certIdentity claimed
  | none => AuthorizationDecision.Allow

/-- Modelled from the spec: the configured modes are evaluated in order; the
first Deny decides, no mode means Allow. -/
def evalModes : List AuthorizationMode → String → String → AuthorizationDecision
  | [], _, _ => AuthorizationDecision.Allow
  | m :: ms, c, n =>
    match evalMode m c n with
    | AuthorizationDecision.Deny => AuthorizationDecision.Deny
    | _ => evalModes ms c n

/-- Modelled from the spec: the decision computed by the Authorization Gate.
Disabled authorization allows; under `Debug` a Deny becomes
AllowWithWarning. -/
def evaluate (cfg : CloudHubAuthorization) (certIdentity claimed : String) : AuthorizationDecision :=
  if cfg.Enable then
    match evalModes cfg.Modes certIdentity claimed with
    | AuthorizationDecision.Deny =>
      if cfg.Debug then AuthorizationDecision.AllowWithWarning else AuthorizationDecision.Deny
    | d => d
  else AuthorizationDecision.Allow

/-- What the gate hands to its caller: the delivered decision and the log
lines written. -/
structure GateResult where
  decision : AuthorizationDecision
  log : List String
  deriving DecidableEq, Repr

/-- Modelled from the spec: the decision delivered to callers.  A Deny that
`Debug` tolerates is logged and delivered as Allow. -/
def authorize (cfg : CloudHubAuthorization) (certIdentity claimed : String) : GateResult :=
  match evaluate cfg certIdentity claimed with
  | AuthorizationDecision.AllowWithWarning =>
    ⟨AuthorizationDecision.Allow, ["authorization denied: " ++ certIdentity ++ " claims " ++ claimed]⟩
  | d => ⟨d, []⟩

/-! ## Dispatch queues -/

/-- Modelled from the spec: a WorkItem (originating node, operation kind,
payload, enqueue timestamp). -/
structure WorkItem where
  node : String
  opKind : String
  payload : String
  enqueuedAt : Nat
  deriving DecidableEq, Repr

/-- Errors of a dispatch queue. -/
inductive QueueError where
  | QueueFull
  deriving DecidableEq, Repr

/-- Modelled from the spec: a DispatchQueue, a bounded FIFO of configured
capacity; `items` holds the pending work items, oldest first. -/
structure DispatchQueue where
  capacity : Nat
  items : List WorkItem
  deriving DecidableEq, Repr

/-- An empty queue of the given capacity. -/
def DispatchQueue.new (capacity : Nat) : DispatchQueue := ⟨capacity, []⟩

/-- A queue is full when it holds as many items as its capacity. -/
def DispatchQueue.isFull (q : DispatchQueue) : Bool := decide (q.capacity ≤ q.items.length)

/-- Modelled from the spec: `Enqueue`; on a full queue it fails with
`QueueFull` (the outcome once the bounded wait has elapsed), otherwise the
item is appended. -/
def DispatchQueue.enqueue (q : DispatchQueue) (w : WorkItem) : Except QueueError DispatchQueue :=
  if q.isFull then .error QueueError.QueueFull
  else .ok { q with items := q.items ++ [w] }

/-- Modelled from the spec: a worker dequeues one item at a time, the oldest. -/
def DispatchQueue.dequeue (q : DispatchQueue) : Option WorkItem × DispatchQueue :=
  match q.items with
  | [] => (none, q)
  | w :: rest => (some w, { q with items := rest })

/-- An operation on a dispatch queue. -/
inductive QueueOp where
  | enqueue (w : WorkItem)
  | dequeue
  deriving DecidableEq, Repr

/-- A queue together with the record of what happened to it: the items whose
enqueue succeeded, the items whose enqueue failed, and the items handed to
workers, each in order of occurrence. -/
structure QueueRun where
  queue : DispatchQueue
  accepted : List WorkItem
  rejected : List WorkItem
  delivered : List WorkItem
  deriving DecidableEq, Repr

/-- A fresh run on an empty queue. -/
def QueueRun.start (capacity : Nat) : QueueRun := ⟨DispatchQueue.new capacity, [], [], []⟩

/-- One operation of a run. -/
def QueueRun.step (t : QueueRun) : QueueOp → QueueRun
  | .enqueue w =>
    match t.queue.enqueue w with
    | .ok q => { t with queue := q, accepted := t.accepted ++ [w] }
    | .error _ => { t with rejected := t.rejected ++ [w] }
  | .dequeue =>
    match t.queue.dequeue with
    | (some w, q) => { t with queue := q, delivered := t.delivered ++ [w] }
    | (none, _) => t

/-- A sequence of operations of a run. -/
def QueueRun.exec (t : QueueRun) (ops : List QueueOp) : QueueRun := ops.foldl QueueRun.step t

/-- Invariant of a run: the queue holds at most `capacity` items, and the
accepted items are the delivered ones followed by the pending ones. -/
def QueueRun.Inv (t : QueueRun) : Prop :=
  t.queue.items.length ≤ t.queue.capacity ∧ t.accepted = t.delivered ++ t.queue.items

/-! ## Assignment to fields behind pointers

An assignment such as `c.Modules.CloudHub.WebSocket.Port = p` dereferences
each pointer on the path; a nil pointer on the path makes it panic, which is
`none` here. -/

/-- Update the struct behind `c.CommonConfig`. -/
def CloudCoreConfig.updCommonConfig (c : CloudCoreConfig)
    (f : CloudCore.CommonConfig → CloudCore.CommonConfig) :
    Option CloudCoreConfig :=
  match c.CommonConfig with
  | none => none
  | some cc => some { c with CommonConfig := some (f cc) }

/-- Update the struct behind `c.Modules`. -/
def CloudCoreConfig.updModules (c : CloudCoreConfig)
    (f : CloudCore.Modules → Option CloudCore.Modules) :
    Option CloudCoreConfig :=
  match c.Modules with
  | none => none
  | some m =>
    match f m with
    | none => none
    | some m1 => some { c with Modules := some m1 }

/-- Update the struct behind `m.CloudHub`. -/
def Modules.updCloudHub (m : Modules) (f : CloudCore.CloudHub → Option CloudCore.CloudHub) :
    Option Modules :=
  match m.CloudHub with
  | none => none
  | some h =>
    match f h with
    | none => none
    | some h1 => some { m with CloudHub := some h1 }

/-- Update the struct behind `m.CloudStream`. -/
def Modules.updCloudStream (m : Modules) (f : CloudCore.CloudStream → CloudCore.CloudStream) :
    Option Modules :=
  match m.CloudStream with
  | none => none
  | some cs => some { m with CloudStream := some (f cs) }

/-- Update the struct behind `m.DeviceController.Load`. -/
def Modules.updDeviceLoad (m : Modules) (f : DeviceControllerLoad → DeviceControllerLoad) :
    Option Modules :=
  match m.DeviceController with
  | none => none
  | some d =>
    match d.Load with
    | none => none
    | some l => some { m with DeviceController := some { d with Load := some (f l) } }

/-- Update the struct behind `m.TaskManager.Load`. -/
def Modules.updTaskLoad (m : Modules) (f : TaskManagerLoad → TaskManagerLoad) : Option Modules :=
  match m.TaskManager with
  | none => none
  | some d =>
    match d.Load with
    | none => none
    | some l => some { m with TaskManager := some { d with Load := some (f l) } }

/-- Update the struct behind `h.WebSocket`. -/
def CloudHub.updWebSocket (h : CloudHub) (f : CloudHubWebSocket → CloudHubWebSocket) :
    Option CloudHub :=
  match h.WebSocket with
  | none => none
  | some w => some { h with WebSocket := some (f w) }

/-- Update the struct behind `h.Quic`. -/
def CloudHub.updQuic (h : CloudHub) (f : CloudHubQUIC → CloudHubQUIC) : Option CloudHub :=
  match h.Quic with
  | none => none
  | some w => some { h with Quic := some (f w) }

/-- Update the struct behind `h.HTTPS`. -/
def CloudHub.updHTTPS (h : CloudHub) (f : CloudHubHTTPS → CloudHubHTTPS) : Option CloudHub :=
  match h.HTTPS with
  | none => none
  | some w => some { h with HTTPS := some (f w) }

/-- The struct behind `c.Modules.CloudHub`. -/
def CloudCoreConfig.cloudHub (c : CloudCoreConfig) : Option CloudHub :=
  c.Modules.bind (fun m => m.CloudHub)

/-- The struct behind `c.Modules.CloudStream`. -/
def CloudCoreConfig.cloudStream (c : CloudCoreConfig) : Option CloudStream :=
  c.Modules.bind (fun m => m.CloudStream)

/-! ### Listener ports -/

/-- The five `uint32` listener ports: `CloudHubWebSocket.Port`,
`CloudHubQUIC.Port`, `CloudHubHTTPS.Port`, `CloudStream.TunnelPort`,
`CloudStream.StreamPort`. -/
inductive PortField where
  | webSocket
  | quic
  | https
  | tunnel
  | stream
  deriving DecidableEq, Repr

/-- Read a listener port of a configuration. -/
def getPort (c : CloudCoreConfig) : PortField → Option Nat
  | .webSocket => (c.cloudHub.bind (fun h => h.WebSocket)).map (fun w => w.Port)
  | .quic => (c.cloudHub.bind (fun h => h.Quic)).map (fun w => w.Port)
  | .https => (c.cloudHub.bind (fun h => h.HTTPS)).map (fun w => w.Port)
  | .tunnel => c.cloudStream.map (fun s => s.TunnelPort)
  | .stream => c.cloudStream.map (fun s => s.StreamPort)

/-- Assign a listener port of a configuration. -/
def setPort (c : CloudCoreConfig) (f : PortField) (p : Nat) : Option CloudCoreConfig :=
  match f with
  | .webSocket =>
    c.updModules (fun m => m.updCloudHub (fun h => h.updWebSocket (fun w => { w with Port := p })))
  | .quic =>
    c.updModules (fun m => m.updCloudHub (fun h => h.updQuic (fun w => { w with Port := p })))
  | .https =>
    c.updModules (fun m => m.updCloudHub (fun h => h.updHTTPS (fun w => { w with Port := p })))
  | .tunnel => c.updModules (fun m => m.updCloudStream (fun s => { s with TunnelPort := p }))
  | .stream => c.updModules (fun m => m.updCloudStream (fun s => { s with StreamPort := p }))

/-- Read `CommonConfig.TunnelPort` (of type `int`). -/
def getCommonTunnelPort (c : CloudCoreConfig) : Option Int :=
  c.CommonConfig.map (fun cc => cc.TunnelPort)

/-- Assign `CommonConfig.TunnelPort`. -/
def setCommonTunnelPort (c : CloudCoreConfig) (p : Int) : Option CloudCoreConfig :=
  c.updCommonConfig (fun cc => { cc with TunnelPort := p })

/-! ### What an assignment to a port leaves unchanged

Written with the field selectors only, one equation per field. -/

/-- Two CloudHub values agree on every field other than the listener pointers
Quic, WebSocket and HTTPS. -/
def CloudHub.agreeOffListeners (a b : CloudHub) : Prop :=
  a.Enable = b.Enable ∧ a.KeepaliveInterval = b.KeepaliveInterval ∧ a.NodeLimit = b.NodeLimit ∧
  a.TLSCAFile = b.TLSCAFile ∧ a.TLSCAKeyFile = b.TLSCAKeyFile ∧ a.TLSCertFile = b.TLSCertFile ∧
  a.TLSPrivateKeyFile = b.TLSPrivateKeyFile ∧ a.WriteTimeout = b.WriteTimeout ∧
  a.UnixSocket = b.UnixSocket ∧ a.AdvertiseAddress = b.AdvertiseAddress ∧
  a.DNSNames = b.DNSNames ∧ a.EdgeCertSigningDuration = b.EdgeCertSigningDuration ∧
  a.TokenRefreshDuration = b.TokenRefreshDuration ∧ a.Authorization = b.Authorization

/-- Two Modules values agree on every field other than CloudHub and
CloudStream. -/
def Modules.agreeOffHubAndStream (a b : Modules) : Prop :=
  a.EdgeController = b.EdgeController ∧ a.DeviceController = b.DeviceController ∧
  a.TaskManager = b.TaskManager ∧ a.SyncController = b.SyncController ∧
  a.DynamicController = b.DynamicController ∧ a.Router = b.Router ∧
  a.IptablesManager = b.IptablesManager

/-- Both WebSocket structs are present and agree on every field other than
Port. -/
def webSocketAgreeOffPort (a b : Option CloudHubWebSocket) : Prop :=
  ∃ w w1, a = some w ∧ b = some w1 ∧ w.Enable = w1.Enable ∧ w.Address = w1.Address

/-- Both QUIC structs are present and agree on every field other than Port. -/
def quicAgreeOffPort (a b : Option CloudHubQUIC) : Prop :=
  ∃ w w1, a = some w ∧ b = some w1 ∧ w.Enable = w1.Enable ∧ w.Address = w1.Address ∧
    w.MaxIncomingStreams = w1.MaxIncomingStreams

/-- Both HTTPS structs are present and agree on every field other than Port. -/
def httpsAgreeOffPort (a b : Option CloudHubHTTPS) : Prop :=
  ∃ w w1, a = some w ∧ b = some w1 ∧ w.Enable = w1.Enable ∧ w.Address = w1.Address

/-- Two CloudStream values agree on every field other than TunnelPort and
StreamPort. -/
def CloudStream.agreeOffPorts (a b : CloudStream) : Prop :=
  a.Enable = b.Enable ∧ a.TLSTunnelCAFile = b.TLSTunnelCAFile ∧
  a.TLSTunnelCertFile = b.TLSTunnelCertFile ∧
  a.TLSTunnelPrivateKeyFile = b.TLSTunnelPrivateKeyFile ∧
  a.TLSStreamCAFile = b.TLSStreamCAFile ∧ a.TLSStreamCertFile = b.TLSStreamCertFile ∧
  a.TLSStreamPrivateKeyFile = b.TLSStreamPrivateKeyFile

/-- The CloudHub structs of two Modules values are present and differ at most
in the port of the listener `f`. -/
def hubAgreeOffPort (f : PortField) (a b : Option CloudHub) : Prop :=
  ∃ h h1, a = some h ∧ b = some h1 ∧ h.agreeOffListeners h1 ∧
    match f with
    | .webSocket =>
      webSocketAgreeOffPort h.WebSocket h1.WebSocket ∧ h.Quic = h1.Quic ∧ h.HTTPS = h1.HTTPS
    | .quic =>
      quicAgreeOffPort h.Quic h1.Quic ∧ h.WebSocket = h1.WebSocket ∧ h.HTTPS = h1.HTTPS
    | .https =>
      httpsAgreeOffPort h.HTTPS h1.HTTPS ∧ h.WebSocket = h1.WebSocket ∧ h.Quic = h1.Quic
    | .tunnel => False
    | .stream => False

/-- The CloudStream structs of two Modules values are present and differ at
most in the port `f`. -/
def streamAgreeOffPort (f : PortField) (a b : Option CloudStream) : Prop :=
  ∃ s s1, a = some s ∧ b = some s1 ∧ s.agreeOffPorts s1 ∧
    match f with
    | .tunnel => s.StreamPort = s1.StreamPort
    | .stream => s.TunnelPort = s1.TunnelPort
    | .webSocket => False
    | .quic => False
    | .https => False

/-- The configurations `c` and `c1` hold the same value in every field other
than the listener port `f`: TypeMeta, CommonConfig, KubeAPIConfig and
FeatureGates are equal, Modules is present in both, and within Modules every
field is equal except that the struct holding the port may differ in that
port. -/
def unchangedExceptPort (f : PortField) (c c1 : CloudCoreConfig) : Prop :=
  c.TypeMeta = c1.TypeMeta ∧ c.CommonConfig = c1.CommonConfig ∧
  c.KubeAPIConfig = c1.KubeAPIConfig ∧ c.FeatureGates = c1.FeatureGates ∧
  ∃ m m1, c.Modules = some m ∧ c1.Modules = some m1 ∧ m.agreeOffHubAndStream m1 ∧
    match f with
    | .webSocket => hubAgreeOffPort f m.CloudHub m1.CloudHub ∧ m.CloudStream = m1.CloudStream
    | .quic => hubAgreeOffPort f m.CloudHub m1.CloudHub ∧ m.CloudStream = m1.CloudStream
    | .https => hubAgreeOffPort f m.CloudHub m1.CloudHub ∧ m.CloudStream = m1.CloudStream
    | .tunnel => streamAgreeOffPort f m.CloudStream m1.CloudStream ∧ m.CloudHub = m1.CloudHub
    | .stream => streamAgreeOffPort f m.CloudStream m1.CloudStream ∧ m.CloudHub = m1.CloudHub

/-- The configurations `c` and `c1` hold the same value in every field other
than `CommonConfig.TunnelPort`. -/
def unchangedExceptCommonTunnelPort (c c1 : CloudCoreConfig) : Prop :=
  c.TypeMeta = c1.TypeMeta ∧ c.KubeAPIConfig = c1.KubeAPIConfig ∧ c.Modules = c1.Modules ∧
  c.FeatureGates = c1.FeatureGates ∧
  ∃ cc cc1, c.CommonConfig = some cc ∧ c1.CommonConfig = some cc1 ∧
    cc.MonitorServer = cc1.MonitorServer

/-! ### TLS material -/

/-- The CA file, certificate file and private key file of one trust domain. -/
structure TLSPaths where
  ca : String
  cert : String
  key : String
  deriving DecidableEq, Repr

/-- The trust domains for which the schema declares a CA file, a certificate
file and a private key file. -/
inductive TrustDomain where
  | cloudHub
  | tunnel
  | stream
  deriving DecidableEq, Repr

/-- Read the TLS paths of a trust domain. -/
def getTLS (c : CloudCoreConfig) : TrustDomain → Option TLSPaths
  | .cloudHub => c.cloudHub.map (fun h => ⟨h.TLSCAFile, h.TLSCertFile, h.TLSPrivateKeyFile⟩)
  | .tunnel =>
    c.cloudStream.map (fun s => ⟨s.TLSTunnelCAFile, s.TLSTunnelCertFile, s.TLSTunnelPrivateKeyFile⟩)
  | .stream =>
    c.cloudStream.map (fun s => ⟨s.TLSStreamCAFile, s.TLSStreamCertFile, s.TLSStreamPrivateKeyFile⟩)

/-- Assign the TLS paths of a trust domain. -/
def setTLS (c : CloudCoreConfig) (d : TrustDomain) (p : TLSPaths) : Option CloudCoreConfig :=
  match d with
  | .cloudHub =>
    c.updModules (fun m => m.updCloudHub (fun h =>
      some { h with TLSCAFile := p.ca, TLSCertFile := p.cert, TLSPrivateKeyFile := p.key }))
  | .tunnel =>
    c.updModules (fun m => m.updCloudStream (fun s =>
      { s with TLSTunnelCAFile := p.ca, TLSTunnelCertFile := p.cert,
               TLSTunnelPrivateKeyFile := p.key }))
  | .stream =>
    c.updModules (fun m => m.updCloudStream (fun s =>
      { s with TLSStreamCAFile := p.ca, TLSStreamCertFile := p.cert,
               TLSStreamPrivateKeyFile := p.key }))

/-- A field of the schema, as (struct name, field name). -/
abbrev FieldRef := String × String

/-- Every field of the schema. -/
def allFields : List FieldRef :=
  (schema.map (fun s => s.fields.map (fun f => (s.name, f.name)))).foldr (· ++ ·) []

/-- Whether a field name ends with the given suffix. -/
def hasSuffix (suffix : String) (r : FieldRef) : Bool := suffix.toList.isSuffixOf r.2.toList

/-- The CA file fields of the schema. -/
def caFileFields : List FieldRef := allFields.filter (hasSuffix "CAFile")

/-- The certificate file fields of the schema. -/
def certFileFields : List FieldRef := allFields.filter (hasSuffix "CertFile")

/-- The private key file fields of the schema. -/
def keyFileFields : List FieldRef := allFields.filter (hasSuffix "PrivateKeyFile")

/-- A group of three schema fields holding the CA file, the certificate file
and the private key file of one trust domain. -/
structure TLSGroup where
  ca : FieldRef
  cert : FieldRef
  key : FieldRef
  deriving DecidableEq, Repr

/-- The group consists of a CA file field, a certificate file field and a
private key file field of the schema. -/
def TLSGroup.wellFormed (g : TLSGroup) : Prop :=
  g.ca ∈ caFileFields ∧ g.cert ∈ certFileFields ∧ g.key ∈ keyFileFields

/-- Two groups share no field. -/
def TLSGroup.disjoint (g1 g2 : TLSGroup) : Prop :=
  g1.ca ≠ g2.ca ∧ g1.cert ≠ g2.cert ∧ g1.key ≠ g2.key

/-- The fields holding the TLS paths of each trust domain. -/
def tlsGroupOf : TrustDomain → TLSGroup
  | .cloudHub =>
    ⟨("CloudHub", "TLSCAFile"), ("CloudHub", "TLSCertFile"), ("CloudHub", "TLSPrivateKeyFile")⟩
  | .tunnel =>
    ⟨("CloudStream", "TLSTunnelCAFile"), ("CloudStream", "TLSTunnelCertFile"),
     ("CloudStream", "TLSTunnelPrivateKeyFile")⟩
  | .stream =>
    ⟨("CloudStream", "TLSStreamCAFile"), ("CloudStream", "TLSStreamCertFile"),
     ("CloudStream", "TLSStreamPrivateKeyFile")⟩

/-! ### Worker counts of DeviceController and TaskManager -/

/-- Read `DeviceControllerLoad.UpdateDeviceStatusWorkers`. -/
def getDeviceWorkers (c : CloudCoreConfig) : Option Int :=
  ((c.Modules.bind (fun m => m.DeviceController)).bind (fun d => d.Load)).map
    (fun l => l.UpdateDeviceStatusWorkers)

/-- Assign `DeviceControllerLoad.UpdateDeviceStatusWorkers`. -/
def setDeviceWorkers (c : CloudCoreConfig) (n : Int) : Option CloudCoreConfig :=
  c.updModules (fun m => m.updDeviceLoad (fun _ => ⟨n⟩))

/-- Read `TaskManagerLoad.TaskWorkers`. -/
def getTaskWorkers (c : CloudCoreConfig) : Option Int :=
  ((c.Modules.bind (fun m => m.TaskManager)).bind (fun d => d.Load)).map (fun l => l.TaskWorkers)

/-- Assign `TaskManagerLoad.TaskWorkers`. -/
def setTaskWorkers (c : CloudCoreConfig) (n : Int) : Option CloudCoreConfig :=
  c.updModules (fun m => m.updTaskLoad (fun _ => ⟨n⟩))

/-! ### JSON keys of a serialised KubeAPIConfig -/

/-- The key a field contributes to the serialised object (encoding/json): a
field is left out exactly when its tag has `omitempty` and its value is the
empty value of its type. -/
def emitKey (f : FieldDecl) (isEmpty : Bool) : List String :=
  if f.omitempty && isEmpty then [] else [f.jsonKey]

/-- Whether the named field of a KubeAPIConfig holds the empty value of its
type (the empty string, the number zero). -/
def KubeAPIConfig.isEmptyField (k : KubeAPIConfig) (goName : String) : Bool :=
  if goName = "Master" then k.Master == ""
  else if goName = "ContentType" then k.ContentType == ""
  else if goName = "QPS" then k.QPS == 0
  else if goName = "Burst" then k.Burst == 0
  else if goName = "KubeConfig" then k.KubeConfig == ""
  else false

/-- The keys of the JSON object a KubeAPIConfig serialises to, in order. -/
def KubeAPIConfig.jsonKeys (k : KubeAPIConfig) : List String :=
  (declKubeAPIConfig.fields.map (fun f => emitKey f (k.isEmptyField f.name))).foldr (· ++ ·) []

/-! ### Fields marked `+Required` -/

/-- The fields of the schema preceded by `+Required`, with their Go type. -/
def requiredFields : List (FieldRef × String) :=
  (schema.map (fun s =>
    (s.fields.filter (fun f => f.required)).map (fun f => ((s.name, f.name), f.goType)))).foldr
    (· ++ ·) []

/-- All `+Required` fields of a CloudCoreConfig are non-nil. -/
def CloudCoreConfig.requiredPresent (c : CloudCoreConfig) : Bool :=
  c.CommonConfig.isSome && c.KubeAPIConfig.isSome && c.Modules.isSome

/-- All `+Required` fields of a CloudHub are non-nil. -/
def CloudHub.requiredPresent (h : CloudHub) : Bool :=
  h.WebSocket.isSome && h.HTTPS.isSome

/-! ### JSON keys of a struct -/

/-- The struct `metav1.TypeMeta` of k8s.io/apimachinery, embedded without a
tag in CloudCoreConfig, so that its keys appear in the object of
CloudCoreConfig; its declaration lies outside the source file. -/
def declTypeMeta : StructDecl := ⟨"TypeMeta", [
  opt "Kind" "string" "kind",
  opt "APIVersion" "string" "apiVersion"]⟩

/-- The structs embedded in a struct of the schema. -/
def embeddedIn (s : StructDecl) : List StructDecl :=
  if s.name = "CloudCoreConfig" then [declTypeMeta] else []

/-- The JSON keys under which the fields of a struct are serialised: the keys
of its own fields after the keys of the fields of its embedded structs. -/
def objectKeys (s : StructDecl) : List String :=
  ((embeddedIn s).map (fun e => e.fields.map FieldDecl.jsonKey)).foldr (· ++ ·) []
    ++ s.fields.map FieldDecl.jsonKey

/-- A key with its letters in lower case, for comparison ignoring case. -/
def lowerKey (k : String) : List Char := k.toList.map Char.toLower

/-- The fields of a struct whose key equals `k` when case is ignored. -/
def fieldsNamedBy (s : StructDecl) (k : String) : List FieldDecl :=
  s.fields.filter (fun f => lowerKey f.jsonKey = lowerKey k)

/-! ### A configuration with the documented defaults -/

/-- A CloudHub with the default values given in the comments of the source. -/
def exampleCloudHub : CloudHub :=
  ⟨true, 30, 1000, "/etc/kubeedge/ca/rootCA.crt", "/etc/kubeedge/ca/rootCA.key",
   "/etc/kubeedge/certs/server.crt", "/etc/kubeedge/certs/server.key", 30,
   some ⟨false, "0.0.0.0", 10001, 10000⟩,
   some ⟨true, "unix:///var/lib/kubeedge/kubeedge.sock"⟩,
   some ⟨true, "0.0.0.0", 10000⟩,
   some ⟨true, "0.0.0.0", 10002⟩,
   [], [], 0, 0, some ⟨false, false, [⟨some ⟨true⟩⟩]⟩⟩

/-- A CloudStream with the default values given in the comments of the source. -/
def exampleCloudStream : CloudStream :=
  ⟨true, "/etc/kubeedge/ca/rootCA.crt", "/etc/kubeedge/certs/server.crt",
   "/etc/kubeedge/certs/server.key", 10004, "/etc/kubeedge/ca/streamCA.crt",
   "/etc/kubeedge/certs/stream.crt", "/etc/kubeedge/certs/stream.key", 10003⟩

/-- A configuration in which CloudHub, DeviceController, TaskManager and
CloudStream are present, with the default values of the source comments. -/
def exampleConfig : CloudCoreConfig :=
  ⟨⟨"CloudCore", "cloudcore.config.kubeedge.io/v1alpha1"⟩,
   some ⟨10350, ⟨"127.0.0.1:9091", false⟩⟩,
   some ⟨"", "application/vnd.kubernetes.protobuf", 100, 200, "/root/.kube/config"⟩,
   some ⟨some exampleCloudHub, none,
     some ⟨true, some ⟨1024, 1024, 1, 1⟩, some ⟨1⟩⟩,
     some ⟨false, some ⟨1024, 1⟩, some ⟨1⟩⟩,
     none, none, some exampleCloudStream, none, none⟩,
   []⟩

end CloudCore

namespace CloudCore

/-! ## Connection registry: invariant -/

theorem Registry.inv_empty (c : Nat) : (Registry.empty c).Inv := by
  simp [Registry.Inv, Registry.empty]

theorem Registry.inv_evict {r : Registry} (s : EdgeSession) (hr : r.Inv) : (r.evict s).Inv := by
  obtain ⟨hc, hle, hnd⟩ := hr
  unfold Registry.evict
  split
  · rename_i hmem
    refine ⟨?_, ?_, ?_⟩
    · simp [List.length_erase_of_mem hmem, hc]
    · simp only; omega
    · exact hnd.sublist ((List.erase_sublist s r.live).map _)
  · exact ⟨hc, hle, hnd⟩

theorem Registry.sessionOf_some {r : Registry} {i : String} {old : EdgeSession}
    (h : r.sessionOf i = some old) : old ∈ r.live ∧ old.identity = i := by
  unfold Registry.sessionOf at h
  refine ⟨List.mem_of_find?_eq_some h, ?_⟩
  have := List.find?_some h
  simpa using this

theorem Registry.sessionOf_none {r : Registry} {i : String}
    (h : r.sessionOf i = none) : ∀ s ∈ r.live, s.identity ≠ i := by
  unfold Registry.sessionOf at h
  intro s hs
  have := List.find?_eq_none.mp h s hs
  simpa using this

/-- Closing the prior session keeps the invariant, keeps the ceiling, does not
raise the counter, and leaves no live session of the identity. -/
theorem Registry.closePrior_spec {r : Registry} (i : String) (hr : r.Inv) :
    (r.closePrior i).Inv ∧ (r.closePrior i).ceiling = r.ceiling ∧
    (r.closePrior i).count ≤ r.count ∧ ∀ s ∈ (r.closePrior i).live, s.identity ≠ i := by
  unfold Registry.closePrior
  cases hso : r.sessionOf i with
  | none => exact ⟨hr, rfl, le_refl _, Registry.sessionOf_none hso⟩
  | some old =>
    obtain ⟨hmem, hid⟩ := Registry.sessionOf_some hso
    refine ⟨Registry.inv_evict old hr, ?_, ?_, ?_⟩
    · simp [Registry.evict, hmem]
    · simp [Registry.evict, hmem]
    · intro s hs
      simp only [Registry.evict, hmem, if_true] at hs
      have hnd : r.live.Nodup := List.Nodup.of_map _ hr.2.2
      have hs' := (hnd.mem_erase_iff).mp hs
      intro hsi
      apply hs'.1
      exact List.inj_on_of_nodup_map hr.2.2 hs'.2 hmem (hsi.trans hid.symm)

/-- What a successful admission produces. -/
theorem Registry.admission_ok {r : Registry} (i : String) (t : TransportKind) (h : Nat)
    (hne : r.count ≠ r.ceiling) :
    r.Admit i t h = .ok ({ r.closePrior i with
      live := ⟨i, t, h⟩ :: (r.closePrior i).live, count := (r.closePrior i).count + 1 }, ⟨i, t, h⟩) := by
  simp [Registry.Admit, hne]

theorem Registry.admission_full {r : Registry} (i : String) (t : TransportKind) (h : Nat)
    (hfull : r.count = r.ceiling) :
    r.Admit i t h = .error RegistryError.NodeLimitExceeded := by
  simp [Registry.Admit, hfull]

theorem Registry.inv_step {r : Registry} (op : RegistryOp) (hr : r.Inv) : (r.step op).Inv := by
  cases op with
  | evict s => exact Registry.inv_evict s hr
  | Admit i t h =>
    by_cases hfull : r.count = r.ceiling
    · simp only [Registry.step, Registry.admission_full i t h hfull]; exact hr
    · simp only [Registry.step, Registry.admission_ok i t h hfull]
      obtain ⟨hinv, hceil, hcnt, hfresh⟩ := Registry.closePrior_spec i hr
      refine ⟨?_, ?_, ?_⟩
      · simp [hinv.1]
      · have := hr.2.1
        simp only [hceil]
        omega
      · simp only [List.map_cons, List.nodup_cons]
        refine ⟨?_, hinv.2.2⟩
        intro hmem
        obtain ⟨s, hs, hsi⟩ := List.mem_map.mp hmem
        exact hfresh s hs hsi

theorem Registry.ceiling_step (r : Registry) (op : RegistryOp) : (r.step op).ceiling = r.ceiling := by
  cases op with
  | evict s => simp only [Registry.step, Registry.evict]; split <;> rfl
  | Admit i t h =>
    by_cases hfull : r.count = r.ceiling
    · simp only [Registry.step, Registry.admission_full i t h hfull]
    · simp only [Registry.step, Registry.admission_ok i t h hfull, Registry.closePrior]
      cases r.sessionOf i with
      | none => rfl
      | some old => simp only [Registry.evict]; split <;> rfl

theorem Registry.run_spec (r : Registry) (ops : List RegistryOp) (hr : r.Inv) :
    (r.run ops).Inv ∧ (r.run ops).ceiling = r.ceiling := by
  induction ops generalizing r with
  | nil => exact ⟨hr, rfl⟩
  | cons op ops ih =>
    have := ih (r.step op) (Registry.inv_step op hr)
    exact ⟨this.1, this.2.trans (Registry.ceiling_step r op)⟩


theorem Registry.liveFor_of_sessionOf_none {r : Registry} {i : String}
    (h : r.sessionOf i = none) : r.liveFor i = [] := by
  unfold Registry.liveFor
  rw [List.filter_eq_nil_iff]
  intro s hs
  simpa using Registry.sessionOf_none h s hs

theorem filter_identity_eq_singleton (i : String) (old : EdgeSession) (l : List EdgeSession)
    (hnd : (l.map EdgeSession.identity).Nodup)
    (h : l.find? (fun s => s.identity == i) = some old) :
    l.filter (fun s => s.identity == i) = [old] := by
  induction l with
  | nil => simp at h
  | cons a l ih =>
    simp only [List.map_cons, List.nodup_cons] at hnd
    by_cases ha : a.identity = i
    · have hold : a = old := by simpa [List.find?_cons, ha] using h
      subst hold
      have hrest : l.filter (fun s => s.identity == i) = [] := by
        rw [List.filter_eq_nil_iff]
        intro s hs hsi
        apply hnd.1
        have : s.identity = a.identity := by simpa [ha] using hsi
        exact this ▸ List.mem_map_of_mem _ hs
      simp [List.filter_cons, ha, hrest]
    · have h' : l.find? (fun s => s.identity == i) = some old := by
        simpa [List.find?_cons, ha] using h
      simp [List.filter_cons, ha, ih hnd.2 h']

theorem Registry.liveFor_of_sessionOf_some {r : Registry} {i : String} {old : EdgeSession}
    (hr : r.Inv) (h : r.sessionOf i = some old) : r.liveFor i = [old] :=
  filter_identity_eq_singleton i old r.live hr.2.2 h

theorem Registry.liveFor_length_le_one {r : Registry} (i : String) (hr : r.Inv) :
    (r.liveFor i).length ≤ 1 := by
  cases h : r.sessionOf i with
  | none => simp [Registry.liveFor_of_sessionOf_none h]
  | some old => simp [Registry.liveFor_of_sessionOf_some hr h]

/-- A successful admission of an identity with a live session closes that
session and leaves the new session as the only live one of the identity. -/
theorem Registry.admission_supersedes {r : Registry} {i : String} {old : EdgeSession}
    (t : TransportKind) (h : Nat) (hr : r.Inv) (hso : r.sessionOf i = some old)
    (hne : r.count ≠ r.ceiling) :
    ∃ r1, r.Admit i t h = .ok (r1, ⟨i, t, h⟩) ∧ old ∈ r1.closed ∧ r1.liveFor i = [⟨i, t, h⟩] := by
  refine ⟨_, Registry.admission_ok i t h hne, ?_, ?_⟩
  · have hmem := (Registry.sessionOf_some hso).1
    simp [Registry.closePrior, hso, Registry.evict, hmem]
  · obtain ⟨_, _, _, hfresh⟩ := Registry.closePrior_spec i hr
    have hrest : (r.closePrior i).live.filter (fun s => s.identity == i) = [] := by
      rw [List.filter_eq_nil_iff]
      intro s hs
      simpa using hfresh s hs
    simp [Registry.liveFor, List.filter_cons, hrest]

/-! ## Connection registry: the claims -/

/-- C2: for every node ceiling and every sequence of admit and evict
operations, the number of live sessions (which the node counter equals) is at
most the ceiling, and an admit attempted while the count equals the ceiling
fails with NodeLimitExceeded and leaves the registry, hence the count,
unchanged. -/
theorem registry_node_limit (ceiling : Nat) (ops : List RegistryOp) :
    ((Registry.empty ceiling).run ops).live.length ≤ ceiling ∧
    ((Registry.empty ceiling).run ops).count = ((Registry.empty ceiling).run ops).live.length ∧
    (((Registry.empty ceiling).run ops).live.length = ceiling →
      ∀ (i : String) (t : TransportKind) (h : Nat),
        ((Registry.empty ceiling).run ops).Admit i t h = .error RegistryError.NodeLimitExceeded ∧
        ((Registry.empty ceiling).run ops).step (.Admit i t h) = (Registry.empty ceiling).run ops) := by
  obtain ⟨hinv, hceil⟩ := Registry.run_spec (Registry.empty ceiling) ops (Registry.inv_empty ceiling)
  have hc : ((Registry.empty ceiling).run ops).ceiling = ceiling := hceil
  refine ⟨?_, hinv.1, ?_⟩
  · have := hinv.2.1
    rw [hinv.1, hc] at this
    exact this
  · intro hlen i t h
    have hfull : ((Registry.empty ceiling).run ops).count = ((Registry.empty ceiling).run ops).ceiling := by
      rw [hinv.1, hc, hlen]
    refine ⟨Registry.admission_full i t h hfull, ?_⟩
    simp only [Registry.step, Registry.admission_full i t h hfull]

/-- Scenario of C2: ceiling 2; admitting A and B succeeds, admitting C then
fails with NodeLimitExceeded; after evicting A, admitting C succeeds. -/
theorem registry_node_limit_scenario :
    ((Registry.empty 2).run [.Admit "A" .websocket 1, .Admit "B" .quic 2]).live
      = [⟨"B", .quic, 2⟩, ⟨"A", .websocket, 1⟩] ∧
    ((Registry.empty 2).run [.Admit "A" .websocket 1, .Admit "B" .quic 2]).Admit "C" .https 3
      = .error RegistryError.NodeLimitExceeded ∧
    ((Registry.empty 2).run [.Admit "A" .websocket 1, .Admit "B" .quic 2, .Admit "C" .https 3,
        .evict ⟨"A", .websocket, 1⟩, .Admit "C" .https 3]).live
      = [⟨"C", .https, 3⟩, ⟨"B", .quic, 2⟩] :=
  ⟨by decide,
   ((registry_node_limit 2 [.Admit "A" .websocket 1, .Admit "B" .quic 2]).2.2 (by decide)
      "C" .https 3).1,
   by decide⟩

/-- With the ceiling checked first, ceiling 1 and node A live, a second
admission of A is refused with NodeLimitExceeded and the first session stays
live. -/
theorem registry_second_admission_refused :
    ((Registry.empty 1).run [.Admit "A" .websocket 1]).sessionOf "A" = some ⟨"A", .websocket, 1⟩ ∧
    ((Registry.empty 1).run [.Admit "A" .websocket 1]).refuses "A" .websocket 2 = true ∧
    ((Registry.empty 1).run [.Admit "A" .websocket 1, .Admit "A" .websocket 2]).live
      = [⟨"A", .websocket, 1⟩] ∧
    ((Registry.empty 1).run [.Admit "A" .websocket 1, .Admit "A" .websocket 2]).closed = [] := by
  decide

/-! ### Both orders of check and close -/

theorem Registry.runWith_checkFirst (r : Registry) (ops : List RegistryOp) :
    r.runWith .checkFirst ops = r.run ops := by
  induction ops generalizing r with
  | nil => rfl
  | cons op ops ih =>
    have hstep : r.stepWith .checkFirst op = r.step op := by
      cases op <;> rfl
    simp only [Registry.runWith, Registry.run, List.foldl_cons] at ih ⊢
    rw [hstep]
    exact ih (r.step op)

/-- What an admission with the prior session closed first produces. -/
theorem Registry.AdmitClosingFirst_ok {r : Registry} (i : String) (t : TransportKind) (h : Nat)
    (hne : (r.closePrior i).count ≠ (r.closePrior i).ceiling) :
    r.AdmitClosingFirst i t h = .ok ({ r.closePrior i with
      live := ⟨i, t, h⟩ :: (r.closePrior i).live, count := (r.closePrior i).count + 1 }, ⟨i, t, h⟩) := by
  simp [Registry.AdmitClosingFirst, hne]

/-- An admission that takes place, under either order, yields the registry in
which the prior session of the identity has been closed and the new session
added. -/
theorem Registry.AdmitWith_ok {o : AdmitOrder} {r r1 : Registry} {i : String}
    {t : TransportKind} {h : Nat} {s : EdgeSession}
    (hok : r.AdmitWith o i t h = .ok (r1, s)) :
    s = ⟨i, t, h⟩ ∧
    r1 = { r.closePrior i with
      live := ⟨i, t, h⟩ :: (r.closePrior i).live, count := (r.closePrior i).count + 1 } ∧
    (r.count ≠ r.ceiling ∨ (r.closePrior i).count ≠ (r.closePrior i).ceiling) := by
  cases o with
  | checkFirst =>
    by_cases hfull : r.count = r.ceiling
    · simp [Registry.AdmitWith, Registry.admission_full i t h hfull] at hok
    · simp only [Registry.AdmitWith, Registry.admission_ok i t h hfull, Except.ok.injEq,
        Prod.mk.injEq] at hok
      exact ⟨hok.2.symm, hok.1.symm, Or.inl hfull⟩
  | closeFirst =>
    by_cases hfull : (r.closePrior i).count = (r.closePrior i).ceiling
    · simp [Registry.AdmitWith, Registry.AdmitClosingFirst, hfull] at hok
    · simp only [Registry.AdmitWith, Registry.AdmitClosingFirst_ok i t h hfull, Except.ok.injEq,
        Prod.mk.injEq] at hok
      exact ⟨hok.2.symm, hok.1.symm, Or.inr hfull⟩

theorem Registry.inv_stepWith (o : AdmitOrder) {r : Registry} (op : RegistryOp) (hr : r.Inv) :
    (r.stepWith o op).Inv ∧ (r.stepWith o op).ceiling = r.ceiling := by
  cases op with
  | evict s =>
    refine ⟨Registry.inv_evict s hr, ?_⟩
    simp only [Registry.stepWith, Registry.evict]
    split <;> rfl
  | Admit i t h =>
    simp only [Registry.stepWith]
    cases hok : r.AdmitWith o i t h with
    | error e => exact ⟨hr, rfl⟩
    | ok res =>
      obtain ⟨r1, s⟩ := res
      obtain ⟨_, hr1, hne⟩ := Registry.AdmitWith_ok hok
      obtain ⟨hinv, hceil, hcnt, hfresh⟩ := Registry.closePrior_spec i hr
      subst hr1
      refine ⟨⟨?_, ?_, ?_⟩, hceil⟩
      · simp [hinv.1]
      · have h1 := hinv.2.1
        have h2 := hr.2.1
        simp only
        rcases hne with hne | hne <;> omega
      · simp only [List.map_cons, List.nodup_cons]
        refine ⟨?_, hinv.2.2⟩
        intro hmem
        obtain ⟨s1, hs1, hsi⟩ := List.mem_map.mp hmem
        exact hfresh s1 hs1 hsi

theorem Registry.runWith_spec (o : AdmitOrder) (r : Registry) (ops : List RegistryOp)
    (hr : r.Inv) : (r.runWith o ops).Inv ∧ (r.runWith o ops).ceiling = r.ceiling := by
  induction ops generalizing r with
  | nil => exact ⟨hr, rfl⟩
  | cons op ops ih =>
    have h1 := Registry.inv_stepWith o op hr
    have h2 := ih (r.stepWith o op) h1.1
    exact ⟨h2.1, h2.2.trans h1.2⟩

/-- With the prior session closed first, admitting an identity that has a live
session is never refused. -/
theorem Registry.AdmitClosingFirst_of_live {r : Registry} {i : String} {old : EdgeSession}
    (hr : r.Inv) (hso : r.sessionOf i = some old) :
    (r.closePrior i).count ≠ (r.closePrior i).ceiling := by
  have hmem := (Registry.sessionOf_some hso).1
  have hpos : 0 < r.live.length := List.length_pos_of_mem hmem
  obtain ⟨hc, hle, _⟩ := hr
  simp only [Registry.closePrior, hso, Registry.evict, hmem, if_true]
  omega

/-- C5: whichever of the two orders of ceiling check and close the registry
uses, for every ceiling, every sequence of admit and evict operations and
every node identity, at most one live session exists for the identity; every
admission of an identity that has a live session closes the prior session and
makes the new session the only live one of the identity; such an admission
takes place whenever the count is below the ceiling, and always when the prior
session is closed before the ceiling is checked. -/
theorem registry_one_session_per_identity (o : AdmitOrder) (ceiling : Nat)
    (ops : List RegistryOp) (identity : String) :
    (((Registry.empty ceiling).runWith o ops).liveFor identity).length ≤ 1 ∧
    ∀ old : EdgeSession,
      ((Registry.empty ceiling).runWith o ops).sessionOf identity = some old →
      ∀ (t : TransportKind) (h : Nat),
        (∀ r1 s, ((Registry.empty ceiling).runWith o ops).AdmitWith o identity t h = .ok (r1, s) →
          s = ⟨identity, t, h⟩ ∧ old ∈ r1.closed ∧ r1.liveFor identity = [s]) ∧
        ((((Registry.empty ceiling).runWith o ops).count ≠ ceiling ∨ o = AdmitOrder.closeFirst) →
          ∃ r1, ((Registry.empty ceiling).runWith o ops).AdmitWith o identity t h
            = .ok (r1, ⟨identity, t, h⟩)) := by
  obtain ⟨hinv, hceil⟩ :=
    Registry.runWith_spec o (Registry.empty ceiling) ops (Registry.inv_empty ceiling)
  have hc : ((Registry.empty ceiling).runWith o ops).ceiling = ceiling := hceil
  refine ⟨Registry.liveFor_length_le_one identity hinv, ?_⟩
  intro old hso t h
  have hmem := (Registry.sessionOf_some hso).1
  constructor
  · intro r1 s hok
    obtain ⟨hs, hr1, _⟩ := Registry.AdmitWith_ok hok
    obtain ⟨_, _, _, hfresh⟩ := Registry.closePrior_spec identity hinv
    subst hs hr1
    refine ⟨rfl, ?_, ?_⟩
    · simp [Registry.closePrior, hso, Registry.evict, hmem]
    · have hrest : (((Registry.empty ceiling).runWith o ops).closePrior identity).live.filter
          (fun s => s.identity == identity) = [] := by
        rw [List.filter_eq_nil_iff]
        intro s hs
        simpa using hfresh s hs
      simp [Registry.liveFor, List.filter_cons, hrest]
  · intro hcase
    cases o with
    | checkFirst =>
      have hne : ((Registry.empty ceiling).runWith .checkFirst ops).count
          ≠ ((Registry.empty ceiling).runWith .checkFirst ops).ceiling := by
        rw [hc]
        rcases hcase with hne | habs
        · exact hne
        · cases habs
      exact ⟨_, Registry.admission_ok identity t h hne⟩
    | closeFirst =>
      exact ⟨_, Registry.AdmitClosingFirst_ok identity t h
        (Registry.AdmitClosingFirst_of_live hinv hso)⟩

/-- Instance of C5: ceiling 1, node A live, prior session closed first;
admitting A again takes place at the ceiling, closes the first session and
leaves the second as the only live session of A. -/
theorem registry_one_session_per_identity_scenario :
    ∃ r1, ((Registry.empty 1).runWith .closeFirst [.Admit "A" .websocket 1]).AdmitWith
          .closeFirst "A" .quic 2 = .ok (r1, ⟨"A", .quic, 2⟩) ∧
      (⟨"A", .websocket, 1⟩ : EdgeSession) ∈ r1.closed ∧ r1.liveFor "A" = [⟨"A", .quic, 2⟩] := by
  obtain ⟨r1, hr1⟩ :=
    ((registry_one_session_per_identity .closeFirst 1 [.Admit "A" .websocket 1] "A").2
      ⟨"A", .websocket, 1⟩ (by decide) .quic 2).2 (Or.inr rfl)
  exact ⟨r1, hr1,
    (((registry_one_session_per_identity .closeFirst 1 [.Admit "A" .websocket 1] "A").2
      ⟨"A", .websocket, 1⟩ (by decide) .quic 2).1 r1 _ hr1).2⟩

/-! ## Authorization gate -/

/-- The configured modes either allow or deny. -/
theorem evalModes_allow_or_deny (modes : List AuthorizationMode) (c n : String) :
    evalModes modes c n = AuthorizationDecision.Allow ∨
    evalModes modes c n = AuthorizationDecision.Deny := by
  induction modes with
  | nil => exact Or.inl rfl
  | cons m ms ih =>
    unfold evalModes
    split
    · exact Or.inr rfl
    · exact ih

/-- C3: for every CloudHubAuthorization configuration with Debug set, or with
Enable unset, or with no mode configured, and for every certificate identity
and claimed node name, the decision delivered to the caller is Allow; a log
line is written exactly when authorization is enabled, Debug is set and the
modes deny the request. -/
theorem authorization_debug_or_disabled_allows (cfg : CloudHubAuthorization)
    (certIdentity claimed : String)
    (h : cfg.Debug = true ∨ cfg.Enable = false ∨ cfg.Modes = []) :
    (authorize cfg certIdentity claimed).decision = AuthorizationDecision.Allow ∧
    ((authorize cfg certIdentity claimed).log ≠ [] ↔
      (cfg.Enable = true ∧ cfg.Debug = true ∧
        evalModes cfg.Modes certIdentity claimed = AuthorizationDecision.Deny)) := by
  obtain ⟨en, dbg, modes⟩ := cfg
  simp only at h
  rcases evalModes_allow_or_deny modes certIdentity claimed with hm | hm <;>
    cases en <;> cases dbg <;>
    simp_all [authorize, evaluate, evalModes]

/-- Instance of C3: node authorization enabled with Debug set; the certificate
identity edge-1 claiming node edge-2 is delivered Allow and logged, whereas
the same request without Debug is delivered Deny. -/
theorem authorization_debug_scenario :
    (authorize ⟨true, true, [⟨some ⟨true⟩⟩]⟩ "edge-1" "edge-2").decision
      = AuthorizationDecision.Allow ∧
    (authorize ⟨true, true, [⟨some ⟨true⟩⟩]⟩ "edge-1" "edge-2").log ≠ [] ∧
    (authorize ⟨true, false, [⟨some ⟨true⟩⟩]⟩ "edge-1" "edge-2").decision
      = AuthorizationDecision.Deny :=
  ⟨(authorization_debug_or_disabled_allows ⟨true, true, [⟨some ⟨true⟩⟩]⟩ "edge-1" "edge-2"
      (Or.inl rfl)).1,
   (authorization_debug_or_disabled_allows ⟨true, true, [⟨some ⟨true⟩⟩]⟩ "edge-1" "edge-2"
      (Or.inl rfl)).2.mpr (by decide),
   by decide⟩

/-! ## Dispatch queues -/

theorem QueueRun.inv_start (c : Nat) : (QueueRun.start c).Inv := by
  simp [QueueRun.Inv, QueueRun.start, DispatchQueue.new]

theorem DispatchQueue.enqueue_full {q : DispatchQueue} (w : WorkItem)
    (h : q.capacity ≤ q.items.length) : q.enqueue w = .error QueueError.QueueFull := by
  simp [DispatchQueue.enqueue, DispatchQueue.isFull, h]

theorem DispatchQueue.enqueue_room {q : DispatchQueue} (w : WorkItem)
    (h : q.items.length < q.capacity) :
    q.enqueue w = .ok { q with items := q.items ++ [w] } := by
  simp [DispatchQueue.enqueue, DispatchQueue.isFull, Nat.not_le.mpr h]

theorem QueueRun.step_spec {t : QueueRun} (op : QueueOp) (ht : t.Inv) :
    (t.step op).Inv ∧ (t.step op).queue.capacity = t.queue.capacity := by
  obtain ⟨hlen, hacc⟩ := ht
  cases op with
  | enqueue w =>
    by_cases hfull : t.queue.capacity ≤ t.queue.items.length
    · simp only [QueueRun.step, DispatchQueue.enqueue_full w hfull]
      exact ⟨⟨hlen, hacc⟩, trivial⟩
    · have hroom : t.queue.items.length < t.queue.capacity := Nat.lt_of_not_le hfull
      simp only [QueueRun.step, DispatchQueue.enqueue_room w hroom]
      refine ⟨⟨?_, ?_⟩, trivial⟩
      · simp only [List.length_append, List.length_singleton]; omega
      · simp only [hacc, List.append_assoc]
  | dequeue =>
    cases hitems : t.queue.items with
    | nil =>
      simp only [QueueRun.step, DispatchQueue.dequeue, hitems]
      exact ⟨⟨hlen, hacc⟩, trivial⟩
    | cons w rest =>
      simp only [QueueRun.step, DispatchQueue.dequeue, hitems]
      rw [hitems] at hlen hacc
      refine ⟨⟨?_, ?_⟩, trivial⟩
      · simp only [List.length_cons] at hlen ⊢; omega
      · simp only [hacc, List.append_assoc, List.singleton_append]

theorem QueueRun.exec_spec (t : QueueRun) (ops : List QueueOp) (ht : t.Inv) :
    (t.exec ops).Inv ∧ (t.exec ops).queue.capacity = t.queue.capacity := by
  induction ops generalizing t with
  | nil => exact ⟨ht, rfl⟩
  | cons op ops ih =>
    have h1 := QueueRun.step_spec op ht
    have h2 := ih (t.step op) h1.1
    exact ⟨h2.1, h2.2.trans h1.2⟩

/-- Dequeuing as many times as items are pending hands every pending item to a
worker, in order, and empties the queue; nothing is accepted meanwhile. -/
theorem QueueRun.drain (t : QueueRun) :
    (t.exec (List.replicate t.queue.items.length QueueOp.dequeue)).delivered
      = t.delivered ++ t.queue.items ∧
    (t.exec (List.replicate t.queue.items.length QueueOp.dequeue)).queue.items = [] ∧
    (t.exec (List.replicate t.queue.items.length QueueOp.dequeue)).accepted = t.accepted := by
  generalize hn : t.queue.items.length = n
  induction n generalizing t with
  | zero =>
    have : t.queue.items = [] := List.length_eq_zero.mp hn
    simp [QueueRun.exec, this]
  | succ n ih =>
    cases hitems : t.queue.items with
    | nil => simp [hitems] at hn
    | cons w rest =>
      have hrest : rest.length = n := by simpa [hitems] using hn
      have hstep : t.step QueueOp.dequeue
          = { t with queue := { t.queue with items := rest }, delivered := t.delivered ++ [w] } := by
        simp [QueueRun.step, DispatchQueue.dequeue, hitems]
      have := ih (t.step QueueOp.dequeue) (by rw [hstep]; exact hrest)
      simp only [QueueRun.exec, List.replicate_succ, List.foldl_cons] at this ⊢
      rw [hstep] at this ⊢
      simpa using this

/-- C4: for every capacity c and every sequence of enqueue and dequeue
operations on a dispatch queue of that capacity, the queue holds at most c
items; an enqueue on a queue holding c items fails with QueueFull and adds
nothing, an enqueue on a queue holding fewer succeeds; the items whose enqueue
succeeded are, in order and with multiplicity, the items already dequeued
followed by the items still pending, and dequeuing the pending items hands
out exactly the accepted items (none dropped, none duplicated). -/
theorem dispatch_queue_bounded_conserving (c : Nat) (ops : List QueueOp) :
    ((QueueRun.start c).exec ops).queue.items.length ≤ c ∧
    ((QueueRun.start c).exec ops).accepted
      = ((QueueRun.start c).exec ops).delivered ++ ((QueueRun.start c).exec ops).queue.items ∧
    (∀ w : WorkItem, ((QueueRun.start c).exec ops).queue.items.length = c →
      ((QueueRun.start c).exec ops).queue.enqueue w = .error QueueError.QueueFull ∧
      (((QueueRun.start c).exec ops).step (.enqueue w)).queue = ((QueueRun.start c).exec ops).queue ∧
      (((QueueRun.start c).exec ops).step (.enqueue w)).accepted
        = ((QueueRun.start c).exec ops).accepted) ∧
    (∀ w : WorkItem, ((QueueRun.start c).exec ops).queue.items.length < c →
      (((QueueRun.start c).exec ops).step (.enqueue w)).queue.items
        = ((QueueRun.start c).exec ops).queue.items ++ [w] ∧
      (((QueueRun.start c).exec ops).step (.enqueue w)).accepted
        = ((QueueRun.start c).exec ops).accepted ++ [w]) ∧
    (((QueueRun.start c).exec ops).exec
        (List.replicate ((QueueRun.start c).exec ops).queue.items.length QueueOp.dequeue)).delivered
      = ((QueueRun.start c).exec ops).accepted ∧
    (((QueueRun.start c).exec ops).exec
        (List.replicate ((QueueRun.start c).exec ops).queue.items.length QueueOp.dequeue)).queue.items
      = [] := by
  obtain ⟨⟨hlen, hacc⟩, hcap⟩ := QueueRun.exec_spec (QueueRun.start c) ops (QueueRun.inv_start c)
  have hc : ((QueueRun.start c).exec ops).queue.capacity = c := hcap
  have hd := QueueRun.drain ((QueueRun.start c).exec ops)
  rw [hc] at hlen
  refine ⟨hlen, hacc, ?_, ?_, ?_, hd.2.1⟩
  · intro w hfull
    have hle : ((QueueRun.start c).exec ops).queue.capacity
        ≤ ((QueueRun.start c).exec ops).queue.items.length := by rw [hc, hfull]
    refine ⟨DispatchQueue.enqueue_full w hle, ?_, ?_⟩ <;>
      simp only [QueueRun.step, DispatchQueue.enqueue_full w hle]
  · intro w hroom
    have hlt : ((QueueRun.start c).exec ops).queue.items.length
        < ((QueueRun.start c).exec ops).queue.capacity := by rw [hc]; exact hroom
    refine ⟨?_, ?_⟩ <;> simp only [QueueRun.step, DispatchQueue.enqueue_room w hlt]
  · rw [hd.1, hacc]

/-- Instance of C4: capacity 1; the first enqueue succeeds, the second fails
with QueueFull and adds nothing; after one dequeue the accepted item has been
handed out once and the queue is empty. -/
theorem dispatch_queue_scenario :
    ((QueueRun.start 1).exec [.enqueue ⟨"edge-1", "CreateLease", "a", 0⟩]).queue.enqueue
        ⟨"edge-1", "CreateLease", "b", 1⟩ = .error QueueError.QueueFull ∧
    ((QueueRun.start 1).exec [.enqueue ⟨"edge-1", "CreateLease", "a", 0⟩,
        .enqueue ⟨"edge-1", "CreateLease", "b", 1⟩, .dequeue]).delivered
      = [⟨"edge-1", "CreateLease", "a", 0⟩] ∧
    ((QueueRun.start 1).exec [.enqueue ⟨"edge-1", "CreateLease", "a", 0⟩,
        .enqueue ⟨"edge-1", "CreateLease", "b", 1⟩, .dequeue]).queue.items = [] :=
  ⟨((dispatch_queue_bounded_conserving 1 [.enqueue ⟨"edge-1", "CreateLease", "a", 0⟩]).2.2.1
      ⟨"edge-1", "CreateLease", "b", 1⟩ (by decide)).1,
   by decide, by decide⟩

/-! ## Assignment behind pointers: what a successful assignment is -/

theorem CloudCoreConfig.updCommonConfig_eq_some {c c1 : CloudCoreConfig}
    {f : CloudCore.CommonConfig → CloudCore.CommonConfig} :
    c.updCommonConfig f = some c1 ↔
      ∃ cc, c.CommonConfig = some cc ∧ c1 = { c with CommonConfig := some (f cc) } := by
  unfold CloudCoreConfig.updCommonConfig
  cases c.CommonConfig with
  | none => simp
  | some cc => simp [eq_comm]

theorem CloudCoreConfig.updModules_eq_some {c c1 : CloudCoreConfig}
    {f : CloudCore.Modules → Option CloudCore.Modules} :
    c.updModules f = some c1 ↔
      ∃ m m1, c.Modules = some m ∧ f m = some m1 ∧ c1 = { c with Modules := some m1 } := by
  unfold CloudCoreConfig.updModules
  cases c.Modules with
  | none => simp
  | some m =>
    cases hf : f m with
    | none => simp [hf]
    | some m1 => simp [hf, eq_comm]

theorem Modules.updCloudHub_eq_some {m m1 : Modules}
    {f : CloudCore.CloudHub → Option CloudCore.CloudHub} :
    m.updCloudHub f = some m1 ↔
      ∃ h h1, m.CloudHub = some h ∧ f h = some h1 ∧ m1 = { m with CloudHub := some h1 } := by
  unfold Modules.updCloudHub
  cases m.CloudHub with
  | none => simp
  | some h =>
    cases hf : f h with
    | none => simp [hf]
    | some h1 => simp [hf, eq_comm]

theorem Modules.updCloudStream_eq_some {m m1 : Modules}
    {f : CloudCore.CloudStream → CloudCore.CloudStream} :
    m.updCloudStream f = some m1 ↔
      ∃ s, m.CloudStream = some s ∧ m1 = { m with CloudStream := some (f s) } := by
  unfold Modules.updCloudStream
  cases m.CloudStream with
  | none => simp
  | some s => simp [eq_comm]

theorem Modules.updDeviceLoad_eq_some {m m1 : Modules}
    {f : DeviceControllerLoad → DeviceControllerLoad} :
    m.updDeviceLoad f = some m1 ↔
      ∃ d l, m.DeviceController = some d ∧ d.Load = some l ∧
        m1 = { m with DeviceController := some { d with Load := some (f l) } } := by
  unfold Modules.updDeviceLoad
  cases m.DeviceController with
  | none => simp
  | some d =>
    cases hl : d.Load with
    | none => simp [hl]
    | some l => simp [hl, eq_comm]

theorem Modules.updTaskLoad_eq_some {m m1 : Modules}
    {f : TaskManagerLoad → TaskManagerLoad} :
    m.updTaskLoad f = some m1 ↔
      ∃ d l, m.TaskManager = some d ∧ d.Load = some l ∧
        m1 = { m with TaskManager := some { d with Load := some (f l) } } := by
  unfold Modules.updTaskLoad
  cases m.TaskManager with
  | none => simp
  | some d =>
    cases hl : d.Load with
    | none => simp [hl]
    | some l => simp [hl, eq_comm]

theorem CloudHub.updWebSocket_eq_some {h h1 : CloudHub}
    {f : CloudHubWebSocket → CloudHubWebSocket} :
    h.updWebSocket f = some h1 ↔
      ∃ w, h.WebSocket = some w ∧ h1 = { h with WebSocket := some (f w) } := by
  unfold CloudHub.updWebSocket
  cases h.WebSocket with
  | none => simp
  | some w => simp [eq_comm]

theorem CloudHub.updQuic_eq_some {h h1 : CloudHub} {f : CloudHubQUIC → CloudHubQUIC} :
    h.updQuic f = some h1 ↔ ∃ w, h.Quic = some w ∧ h1 = { h with Quic := some (f w) } := by
  unfold CloudHub.updQuic
  cases h.Quic with
  | none => simp
  | some w => simp [eq_comm]

theorem CloudHub.updHTTPS_eq_some {h h1 : CloudHub} {f : CloudHubHTTPS → CloudHubHTTPS} :
    h.updHTTPS f = some h1 ↔ ∃ w, h.HTTPS = some w ∧ h1 = { h with HTTPS := some (f w) } := by
  unfold CloudHub.updHTTPS
  cases h.HTTPS with
  | none => simp
  | some w => simp [eq_comm]

/-! ## Capacity fields and worker-count fields -/

/-- C1, as stated, fails: the capacity field PodEvent of EdgeControllerBuffer
has no worker-count field in EdgeControllerLoad, the worker-count field
UpdateRuleStatusWorkers belongs to no capacity field, and since the structs
have 24 and 20 fields no pairing of their fields is a bijection. -/
theorem edgeController_pairing_not_bijective :
    "PodEvent" ∈ declEdgeControllerBuffer.fieldNames ∧
    workerFieldsOf declEdgeControllerLoad "PodEvent" = [] ∧
    "UpdateRuleStatusWorkers" ∈ declEdgeControllerLoad.fieldNames ∧
    kindsOf declEdgeControllerBuffer "UpdateRuleStatusWorkers" = [] ∧
    declEdgeControllerBuffer.fields.length = 24 ∧
    declEdgeControllerLoad.fields.length = 20 ∧
    ¬ ∃ f : Fin declEdgeControllerBuffer.fields.length → Fin declEdgeControllerLoad.fields.length,
        Function.Bijective f := by
  refine ⟨by decide, by decide, by decide, by decide, by decide, by decide, ?_⟩
  rintro ⟨f, hf⟩
  have h := Fintype.card_of_bijective hf
  simp only [Fintype.card_fin] at h
  exact absurd h (by decide)

/-- C1, amended: the pairing of capacity fields of EdgeControllerBuffer with
worker-count fields of EdgeControllerLoad is one-to-one where it is defined:
19 of the 24 capacity fields have exactly one worker-count field, the five
event buffers (PodEvent, ConfigMapEvent, SecretEvent, RulesEvent,
RuleEndpointsEvent) have none, and of the 20 worker-count fields each belongs
to exactly one capacity field except UpdateRuleStatusWorkers, which belongs to
none. -/
theorem edgeController_pairing_table :
    declEdgeControllerBuffer.fieldNames.map (fun K => (K, workerFieldsOf declEdgeControllerLoad K))
      = [("ProcessEvent", ["ProcessEventWorkers"]),
         ("UpdatePodStatus", ["UpdatePodStatusWorkers"]),
         ("UpdateNodeStatus", ["UpdateNodeStatusWorkers"]),
         ("QueryConfigMap", ["QueryConfigMapWorkers"]),
         ("QuerySecret", ["QuerySecretWorkers"]),
         ("PodEvent", []), ("ConfigMapEvent", []), ("SecretEvent", []),
         ("RulesEvent", []), ("RuleEndpointsEvent", []),
         ("QueryPersistentVolume", ["QueryPersistentVolumeWorkers"]),
         ("QueryPersistentVolumeClaim", ["QueryPersistentVolumeClaimWorkers"]),
         ("QueryVolumeAttachment", ["QueryVolumeAttachmentWorkers"]),
         ("CreateNode", ["CreateNodeWorkers"]),
         ("PatchNode", ["PatchNodeWorkers"]),
         ("QueryNode", ["QueryNodeWorkers"]),
         ("UpdateNode", ["UpdateNodeWorkers"]),
         ("PatchPod", ["PatchPodWorkers"]),
         ("DeletePod", ["DeletePodWorkers"]),
         ("CreateLease", ["CreateLeaseWorkers"]),
         ("QueryLease", ["QueryLeaseWorkers"]),
         ("ServiceAccountToken", ["ServiceAccountTokenWorkers"]),
         ("CreatePod", ["CreatePodWorks"]),
         ("CertificateSigningRequest", ["CertificateSigningRequestWorkers"])] ∧
    declEdgeControllerLoad.fieldNames.map (fun F => (F, kindsOf declEdgeControllerBuffer F))
      = [("ProcessEventWorkers", ["ProcessEvent"]),
         ("UpdatePodStatusWorkers", ["UpdatePodStatus"]),
         ("UpdateNodeStatusWorkers", ["UpdateNodeStatus"]),
         ("QueryConfigMapWorkers", ["QueryConfigMap"]),
         ("QuerySecretWorkers", ["QuerySecret"]),
         ("QueryPersistentVolumeWorkers", ["QueryPersistentVolume"]),
         ("QueryPersistentVolumeClaimWorkers", ["QueryPersistentVolumeClaim"]),
         ("QueryVolumeAttachmentWorkers", ["QueryVolumeAttachment"]),
         ("CreateNodeWorkers", ["CreateNode"]),
         ("PatchNodeWorkers", ["PatchNode"]),
         ("QueryNodeWorkers", ["QueryNode"]),
         ("UpdateNodeWorkers", ["UpdateNode"]),
         ("PatchPodWorkers", ["PatchPod"]),
         ("DeletePodWorkers", ["DeletePod"]),
         ("CreateLeaseWorkers", ["CreateLease"]),
         ("QueryLeaseWorkers", ["QueryLease"]),
         ("UpdateRuleStatusWorkers", []),
         ("ServiceAccountTokenWorkers", ["ServiceAccountToken"]),
         ("CreatePodWorks", ["CreatePod"]),
         ("CertificateSigningRequestWorkers", ["CertificateSigningRequest"])] := by
  constructor <;> decide

/-- C6, as stated, fails: DeviceControllerLoad declares the single field
UpdateDeviceStatusWorkers, so no assignment of worker-count fields of that
struct gives UpdateDeviceTwins and UpdateDeviceStates distinct fields. -/
theorem deviceController_kinds_share_worker_field :
    "UpdateDeviceTwins" ∈ declDeviceControllerBuffer.fieldNames ∧
    "UpdateDeviceStates" ∈ declDeviceControllerBuffer.fieldNames ∧
    declDeviceControllerLoad.fieldNames = ["UpdateDeviceStatusWorkers"] ∧
    ¬ ∃ f : String → String,
        f "UpdateDeviceTwins" ∈ declDeviceControllerLoad.fieldNames ∧
        f "UpdateDeviceStates" ∈ declDeviceControllerLoad.fieldNames ∧
        f "UpdateDeviceTwins" ≠ f "UpdateDeviceStates" := by
  refine ⟨by decide, by decide, by decide, ?_⟩
  rintro ⟨f, h1, h2, hne⟩
  have e : declDeviceControllerLoad.fieldNames = ["UpdateDeviceStatusWorkers"] := by decide
  rw [e, List.mem_singleton] at h1 h2
  exact hne (h1.trans h2.symm)

/-- C6, amended: DeviceControllerLoad declares exactly one worker-count field,
UpdateDeviceStatusWorkers, and TaskManagerLoad exactly one, TaskWorkers; they
are fields of different structs, and for every configuration an assignment to
one of them succeeds exactly when its Load struct is present, stores the
value, and leaves the other unchanged. -/
theorem device_and_task_worker_fields (c : CloudCoreConfig) (n : Int) :
    declDeviceControllerLoad.fieldNames = ["UpdateDeviceStatusWorkers"] ∧
    declTaskManagerLoad.fieldNames = ["TaskWorkers"] ∧
    (setDeviceWorkers c n).isSome = (getDeviceWorkers c).isSome ∧
    (setTaskWorkers c n).isSome = (getTaskWorkers c).isSome ∧
    (∀ c1, setDeviceWorkers c n = some c1 →
      getDeviceWorkers c1 = some n ∧ getTaskWorkers c1 = getTaskWorkers c) ∧
    (∀ c1, setTaskWorkers c n = some c1 →
      getTaskWorkers c1 = some n ∧ getDeviceWorkers c1 = getDeviceWorkers c) := by
  refine ⟨by decide, by decide, ?_, ?_, ?_, ?_⟩
  · simp only [setDeviceWorkers, getDeviceWorkers, CloudCoreConfig.updModules,
      Modules.updDeviceLoad]
    cases c.Modules with
    | none => rfl
    | some m =>
      cases hd : m.DeviceController with
      | none => simp [hd]
      | some d => cases hl : d.Load <;> simp [hd, hl]
  · simp only [setTaskWorkers, getTaskWorkers, CloudCoreConfig.updModules, Modules.updTaskLoad]
    cases c.Modules with
    | none => rfl
    | some m =>
      cases hd : m.TaskManager with
      | none => simp [hd]
      | some d => cases hl : d.Load <;> simp [hd, hl]
  · intro c1 h
    obtain ⟨m, m1, hm, hf, rfl⟩ := CloudCoreConfig.updModules_eq_some.mp h
    obtain ⟨d, l, hd, hl, rfl⟩ := Modules.updDeviceLoad_eq_some.mp hf
    simp [getDeviceWorkers, getTaskWorkers, hm]
  · intro c1 h
    obtain ⟨m, m1, hm, hf, rfl⟩ := CloudCoreConfig.updModules_eq_some.mp h
    obtain ⟨d, l, hd, hl, rfl⟩ := Modules.updTaskLoad_eq_some.mp hf
    simp [getDeviceWorkers, getTaskWorkers, hm]

/-- Instance of the amended C6: in the example configuration, setting the
DeviceController worker count to 4 stores 4 and leaves the TaskManager worker
count as it was. -/
theorem device_and_task_worker_fields_instance :
    ∃ c1, setDeviceWorkers exampleConfig 4 = some c1 ∧
      getDeviceWorkers c1 = some 4 ∧ getTaskWorkers c1 = getTaskWorkers exampleConfig :=
  ⟨_, rfl, (device_and_task_worker_fields exampleConfig 4).2.2.2.2.1 _ rfl⟩

/-! ## TLS material -/

/-- C7, as stated, fails: the schema declares three CA file fields, three
certificate file fields and three private key file fields, so there are no
four pairwise disjoint groups of a CA file, a certificate file and a private
key file. -/
theorem no_four_tls_groups :
    caFileFields = [("CloudHub", "TLSCAFile"), ("CloudStream", "TLSTunnelCAFile"),
      ("CloudStream", "TLSStreamCAFile")] ∧
    certFileFields = [("CloudHub", "TLSCertFile"), ("CloudStream", "TLSTunnelCertFile"),
      ("CloudStream", "TLSStreamCertFile")] ∧
    keyFileFields = [("CloudHub", "TLSPrivateKeyFile"), ("CloudStream", "TLSTunnelPrivateKeyFile"),
      ("CloudStream", "TLSStreamPrivateKeyFile")] ∧
    ¬ ∃ gs : List TLSGroup, gs.length = 4 ∧ (∀ g ∈ gs, g.wellFormed) ∧
        gs.Pairwise TLSGroup.disjoint := by
  refine ⟨by decide, by decide, by decide, ?_⟩
  rintro ⟨gs, hlen, hwf, hdis⟩
  have hnd : (gs.map TLSGroup.ca).Nodup := by
    rw [List.Nodup, List.pairwise_map]
    exact hdis.imp (fun h => h.1)
  have hsub : gs.map TLSGroup.ca ⊆ caFileFields := by
    intro x hx
    obtain ⟨g, hg, rfl⟩ := List.mem_map.mp hx
    exact (hwf g hg).1
  have hle := (hnd.subperm hsub).length_le
  have h3 : caFileFields.length = 3 := by decide
  rw [List.length_map, hlen, h3] at hle
  omega

/-- C7, amended: the schema declares CA file, certificate file and private
key file fields for three trust domains (CloudHub, tunnel, stream), as three
pairwise disjoint groups that cover every such field; for every configuration
an assignment of one domain's paths succeeds exactly when the struct holding
them is present, stores the paths, and leaves the paths of every other domain
unchanged. -/
theorem tls_three_disjoint_domains (c : CloudCoreConfig) (d : TrustDomain) (p : TLSPaths) :
    (∀ e : TrustDomain, (tlsGroupOf e).wellFormed) ∧
    (∀ e1 e2 : TrustDomain, e1 ≠ e2 → (tlsGroupOf e1).disjoint (tlsGroupOf e2)) ∧
    caFileFields = [TrustDomain.cloudHub, .tunnel, .stream].map (fun e => (tlsGroupOf e).ca) ∧
    certFileFields = [TrustDomain.cloudHub, .tunnel, .stream].map (fun e => (tlsGroupOf e).cert) ∧
    keyFileFields = [TrustDomain.cloudHub, .tunnel, .stream].map (fun e => (tlsGroupOf e).key) ∧
    (setTLS c d p).isSome = (getTLS c d).isSome ∧
    (∀ c1, setTLS c d p = some c1 →
      getTLS c1 d = some p ∧ ∀ e : TrustDomain, e ≠ d → getTLS c1 e = getTLS c e) := by
  refine ⟨?_, ?_, by decide, by decide, by decide, ?_, ?_⟩
  · intro e
    cases e <;> exact ⟨by decide, by decide, by decide⟩
  · intro e1 e2 hne
    cases e1 <;> cases e2 <;> first
      | exact absurd rfl hne
      | exact ⟨by decide, by decide, by decide⟩
  · cases d with
    | cloudHub =>
      simp only [setTLS, getTLS, CloudCoreConfig.updModules, Modules.updCloudHub,
        CloudCoreConfig.cloudHub]
      cases c.Modules with
      | none => rfl
      | some m => cases hh : m.CloudHub <;> simp [hh]
    | tunnel =>
      simp only [setTLS, getTLS, CloudCoreConfig.updModules, Modules.updCloudStream,
        CloudCoreConfig.cloudStream]
      cases c.Modules with
      | none => rfl
      | some m => cases hs : m.CloudStream <;> simp [hs]
    | stream =>
      simp only [setTLS, getTLS, CloudCoreConfig.updModules, Modules.updCloudStream,
        CloudCoreConfig.cloudStream]
      cases c.Modules with
      | none => rfl
      | some m => cases hs : m.CloudStream <;> simp [hs]
  · intro c1 h
    cases d with
    | cloudHub =>
      obtain ⟨m, m1, hm, hf, rfl⟩ := CloudCoreConfig.updModules_eq_some.mp h
      obtain ⟨h0, h1, hh, hg, rfl⟩ := Modules.updCloudHub_eq_some.mp hf
      simp only [Option.some.injEq] at hg
      subst hg
      refine ⟨by simp [getTLS, CloudCoreConfig.cloudHub], ?_⟩
      intro e he
      cases e <;> first
        | exact absurd rfl he
        | simp [getTLS, CloudCoreConfig.cloudStream, hm]
    | tunnel =>
      obtain ⟨m, m1, hm, hf, rfl⟩ := CloudCoreConfig.updModules_eq_some.mp h
      obtain ⟨s0, hs, rfl⟩ := Modules.updCloudStream_eq_some.mp hf
      refine ⟨by simp [getTLS, CloudCoreConfig.cloudStream], ?_⟩
      intro e he
      cases e <;> first
        | exact absurd rfl he
        | simp [getTLS, CloudCoreConfig.cloudStream, CloudCoreConfig.cloudHub, hm, hs]
    | stream =>
      obtain ⟨m, m1, hm, hf, rfl⟩ := CloudCoreConfig.updModules_eq_some.mp h
      obtain ⟨s0, hs, rfl⟩ := Modules.updCloudStream_eq_some.mp hf
      refine ⟨by simp [getTLS, CloudCoreConfig.cloudStream], ?_⟩
      intro e he
      cases e <;> first
        | exact absurd rfl he
        | simp [getTLS, CloudCoreConfig.cloudStream, CloudCoreConfig.cloudHub, hm, hs]

/-- Instance of the amended C7: in the example configuration, replacing the
tunnel paths stores them and leaves the CloudHub and stream paths unchanged. -/
theorem tls_three_disjoint_domains_instance :
    ∃ c1, setTLS exampleConfig .tunnel ⟨"/t/ca.crt", "/t/tls.crt", "/t/tls.key"⟩ = some c1 ∧
      getTLS c1 .tunnel = some ⟨"/t/ca.crt", "/t/tls.crt", "/t/tls.key"⟩ ∧
      getTLS c1 .cloudHub = getTLS exampleConfig .cloudHub ∧
      getTLS c1 .stream = getTLS exampleConfig .stream :=
  ⟨_, rfl,
   ((tls_three_disjoint_domains exampleConfig .tunnel
      ⟨"/t/ca.crt", "/t/tls.crt", "/t/tls.key"⟩).2.2.2.2.2.2 _ rfl).1,
   ((tls_three_disjoint_domains exampleConfig .tunnel
      ⟨"/t/ca.crt", "/t/tls.crt", "/t/tls.key"⟩).2.2.2.2.2.2 _ rfl).2 .cloudHub (by decide),
   ((tls_three_disjoint_domains exampleConfig .tunnel
      ⟨"/t/ca.crt", "/t/tls.crt", "/t/tls.key"⟩).2.2.2.2.2.2 _ rfl).2 .stream (by decide)⟩

/-! ## Listener ports -/

/-- C8: the WebSocket, QUIC, HTTPS, tunnel and stream ports and
CommonConfig.TunnelPort are distinct fields.  For every configuration and
every port value, an assignment to one of them succeeds exactly when the
struct holding it is present; it stores the value, leaves each of the other
port fields unchanged, leaves every other field of the configuration equal
to what it was (field by field), and assigning the old value back gives the
original configuration. -/
theorem listener_ports_independent (c : CloudCoreConfig) (f : PortField) (p : Nat) (q : Int) :
    (setPort c f p).isSome = (getPort c f).isSome ∧
    (setCommonTunnelPort c q).isSome = (getCommonTunnelPort c).isSome ∧
    (∀ c1, setPort c f p = some c1 →
      getPort c1 f = some p ∧ (∀ g : PortField, g ≠ f → getPort c1 g = getPort c g) ∧
      getCommonTunnelPort c1 = getCommonTunnelPort c ∧
      (∃ old, getPort c f = some old ∧ setPort c1 f old = some c) ∧
      unchangedExceptPort f c c1) ∧
    (∀ c1, setCommonTunnelPort c q = some c1 →
      getCommonTunnelPort c1 = some q ∧ (∀ g : PortField, getPort c1 g = getPort c g) ∧
      (∃ old, getCommonTunnelPort c = some old ∧ setCommonTunnelPort c1 old = some c) ∧
      unchangedExceptCommonTunnelPort c c1) := by
  refine ⟨?_, ?_, ?_, ?_⟩
  · cases f with
    | webSocket =>
      simp only [setPort, getPort, CloudCoreConfig.updModules, Modules.updCloudHub,
        CloudHub.updWebSocket, CloudCoreConfig.cloudHub]
      cases c.Modules with
      | none => rfl
      | some m =>
        cases hh : m.CloudHub with
        | none => simp [hh]
        | some h0 => cases hw : h0.WebSocket <;> simp [hh, hw]
    | quic =>
      simp only [setPort, getPort, CloudCoreConfig.updModules, Modules.updCloudHub,
        CloudHub.updQuic, CloudCoreConfig.cloudHub]
      cases c.Modules with
      | none => rfl
      | some m =>
        cases hh : m.CloudHub with
        | none => simp [hh]
        | some h0 => cases hw : h0.Quic <;> simp [hh, hw]
    | https =>
      simp only [setPort, getPort, CloudCoreConfig.updModules, Modules.updCloudHub,
        CloudHub.updHTTPS, CloudCoreConfig.cloudHub]
      cases c.Modules with
      | none => rfl
      | some m =>
        cases hh : m.CloudHub with
        | none => simp [hh]
        | some h0 => cases hw : h0.HTTPS <;> simp [hh, hw]
    | tunnel =>
      simp only [setPort, getPort, CloudCoreConfig.updModules, Modules.updCloudStream,
        CloudCoreConfig.cloudStream]
      cases c.Modules with
      | none => rfl
      | some m => cases hs : m.CloudStream <;> simp [hs]
    | stream =>
      simp only [setPort, getPort, CloudCoreConfig.updModules, Modules.updCloudStream,
        CloudCoreConfig.cloudStream]
      cases c.Modules with
      | none => rfl
      | some m => cases hs : m.CloudStream <;> simp [hs]
  · simp only [setCommonTunnelPort, getCommonTunnelPort, CloudCoreConfig.updCommonConfig]
    cases c.CommonConfig <;> rfl
  · intro c1 h
    cases f with
    | webSocket =>
      obtain ⟨m, m1, hm, hf, rfl⟩ := CloudCoreConfig.updModules_eq_some.mp h
      obtain ⟨h0, h1, hh, hg, rfl⟩ := Modules.updCloudHub_eq_some.mp hf
      obtain ⟨w, hw, rfl⟩ := CloudHub.updWebSocket_eq_some.mp hg
      refine ⟨by simp [getPort, CloudCoreConfig.cloudHub], ?_, ?_, ⟨w.Port, ?_, ?_⟩, ?_⟩
      · intro g hg
        cases g <;> first
          | exact absurd rfl hg
          | simp [getPort, CloudCoreConfig.cloudHub, CloudCoreConfig.cloudStream, hm, hh]
      · rfl
      · simp [getPort, CloudCoreConfig.cloudHub, hm, hh, hw]
      · obtain ⟨tm, cc, kc, mo, fg⟩ := c
        obtain ⟨a1, a2, a3, a4, a5, a6, a7, a8, a9⟩ := m
        obtain ⟨b1, b2, b3, b4, b5, b6, b7, b8, b9, b10, b11, b12, b13, b14, b15, b16, b17⟩ := h0
        simp only at hm hh hw
        subst hm hh hw
        rfl
      · refine ⟨rfl, rfl, rfl, rfl, m, _, hm, rfl, ⟨rfl, rfl, rfl, rfl, rfl, rfl, rfl⟩, ?_, rfl⟩
        refine ⟨h0, _, hh, rfl,
          ⟨rfl, rfl, rfl, rfl, rfl, rfl, rfl, rfl, rfl, rfl, rfl, rfl, rfl, rfl⟩, ?_, rfl, rfl⟩
        exact ⟨w, _, hw, rfl, by simp⟩
    | quic =>
      obtain ⟨m, m1, hm, hf, rfl⟩ := CloudCoreConfig.updModules_eq_some.mp h
      obtain ⟨h0, h1, hh, hg, rfl⟩ := Modules.updCloudHub_eq_some.mp hf
      obtain ⟨w, hw, rfl⟩ := CloudHub.updQuic_eq_some.mp hg
      refine ⟨by simp [getPort, CloudCoreConfig.cloudHub], ?_, ?_, ⟨w.Port, ?_, ?_⟩, ?_⟩
      · intro g hg
        cases g <;> first
          | exact absurd rfl hg
          | simp [getPort, CloudCoreConfig.cloudHub, CloudCoreConfig.cloudStream, hm, hh]
      · rfl
      · simp [getPort, CloudCoreConfig.cloudHub, hm, hh, hw]
      · obtain ⟨tm, cc, kc, mo, fg⟩ := c
        obtain ⟨a1, a2, a3, a4, a5, a6, a7, a8, a9⟩ := m
        obtain ⟨b1, b2, b3, b4, b5, b6, b7, b8, b9, b10, b11, b12, b13, b14, b15, b16, b17⟩ := h0
        simp only at hm hh hw
        subst hm hh hw
        rfl
      · refine ⟨rfl, rfl, rfl, rfl, m, _, hm, rfl, ⟨rfl, rfl, rfl, rfl, rfl, rfl, rfl⟩, ?_, rfl⟩
        refine ⟨h0, _, hh, rfl,
          ⟨rfl, rfl, rfl, rfl, rfl, rfl, rfl, rfl, rfl, rfl, rfl, rfl, rfl, rfl⟩, ?_, rfl, rfl⟩
        exact ⟨w, _, hw, rfl, by simp⟩
    | https =>
      obtain ⟨m, m1, hm, hf, rfl⟩ := CloudCoreConfig.updModules_eq_some.mp h
      obtain ⟨h0, h1, hh, hg, rfl⟩ := Modules.updCloudHub_eq_some.mp hf
      obtain ⟨w, hw, rfl⟩ := CloudHub.updHTTPS_eq_some.mp hg
      refine ⟨by simp [getPort, CloudCoreConfig.cloudHub], ?_, ?_, ⟨w.Port, ?_, ?_⟩, ?_⟩
      · intro g hg
        cases g <;> first
          | exact absurd rfl hg
          | simp [getPort, CloudCoreConfig.cloudHub, CloudCoreConfig.cloudStream, hm, hh]
      · rfl
      · simp [getPort, CloudCoreConfig.cloudHub, hm, hh, hw]
      · obtain ⟨tm, cc, kc, mo, fg⟩ := c
        obtain ⟨a1, a2, a3, a4, a5, a6, a7, a8, a9⟩ := m
        obtain ⟨b1, b2, b3, b4, b5, b6, b7, b8, b9, b10, b11, b12, b13, b14, b15, b16, b17⟩ := h0
        simp only at hm hh hw
        subst hm hh hw
        rfl
      · refine ⟨rfl, rfl, rfl, rfl, m, _, hm, rfl, ⟨rfl, rfl, rfl, rfl, rfl, rfl, rfl⟩, ?_, rfl⟩
        refine ⟨h0, _, hh, rfl,
          ⟨rfl, rfl, rfl, rfl, rfl, rfl, rfl, rfl, rfl, rfl, rfl, rfl, rfl, rfl⟩, ?_, rfl, rfl⟩
        exact ⟨w, _, hw, rfl, by simp⟩
    | tunnel =>
      obtain ⟨m, m1, hm, hf, rfl⟩ := CloudCoreConfig.updModules_eq_some.mp h
      obtain ⟨s0, hs, rfl⟩ := Modules.updCloudStream_eq_some.mp hf
      refine ⟨by simp [getPort, CloudCoreConfig.cloudStream], ?_, ?_, ?_, ?_⟩
      · intro g hg
        cases g <;> first
          | exact absurd rfl hg
          | simp [getPort, CloudCoreConfig.cloudHub, CloudCoreConfig.cloudStream, hm, hs]
      · rfl
      · obtain ⟨tm, cc, kc, mo, fg⟩ := c
        obtain ⟨a1, a2, a3, a4, a5, a6, a7, a8, a9⟩ := m
        simp only at hm hs
        subst hm hs
        exact ⟨_, rfl, rfl⟩
      · refine ⟨rfl, rfl, rfl, rfl, m, _, hm, rfl, ⟨rfl, rfl, rfl, rfl, rfl, rfl, rfl⟩, ?_, rfl⟩
        exact ⟨s0, _, hs, rfl, ⟨rfl, rfl, rfl, rfl, rfl, rfl, rfl⟩, rfl⟩
    | stream =>
      obtain ⟨m, m1, hm, hf, rfl⟩ := CloudCoreConfig.updModules_eq_some.mp h
      obtain ⟨s0, hs, rfl⟩ := Modules.updCloudStream_eq_some.mp hf
      refine ⟨by simp [getPort, CloudCoreConfig.cloudStream], ?_, ?_, ?_, ?_⟩
      · intro g hg
        cases g <;> first
          | exact absurd rfl hg
          | simp [getPort, CloudCoreConfig.cloudHub, CloudCoreConfig.cloudStream, hm, hs]
      · rfl
      · obtain ⟨tm, cc, kc, mo, fg⟩ := c
        obtain ⟨a1, a2, a3, a4, a5, a6, a7, a8, a9⟩ := m
        simp only at hm hs
        subst hm hs
        exact ⟨_, rfl, rfl⟩
      · refine ⟨rfl, rfl, rfl, rfl, m, _, hm, rfl, ⟨rfl, rfl, rfl, rfl, rfl, rfl, rfl⟩, ?_, rfl⟩
        exact ⟨s0, _, hs, rfl, ⟨rfl, rfl, rfl, rfl, rfl, rfl, rfl⟩, rfl⟩
  · intro c1 h
    obtain ⟨cc0, hc, rfl⟩ := CloudCoreConfig.updCommonConfig_eq_some.mp h
    refine ⟨by simp [getCommonTunnelPort], ?_,
      ⟨cc0.TunnelPort, by simp [getCommonTunnelPort, hc], ?_⟩, ?_⟩
    · intro g
      cases g <;> rfl
    · obtain ⟨tm, cc, kc, mo, fg⟩ := c
      simp only at hc
      subst hc
      rfl
    · exact ⟨rfl, rfl, rfl, rfl, cc0, _, hc, rfl, rfl⟩

/-- Instance of C8: in the example configuration, setting the WebSocket port
to 20000 stores it, leaves the QUIC, HTTPS, tunnel and stream ports and
CommonConfig.TunnelPort unchanged, and setting 10000 back gives the example
configuration. -/
theorem listener_ports_independent_instance :
    ∃ c1, setPort exampleConfig .webSocket 20000 = some c1 ∧
      getPort c1 .webSocket = some 20000 ∧
      getPort c1 .quic = getPort exampleConfig .quic ∧
      getPort c1 .https = getPort exampleConfig .https ∧
      getPort c1 .tunnel = getPort exampleConfig .tunnel ∧
      getPort c1 .stream = getPort exampleConfig .stream ∧
      getCommonTunnelPort c1 = getCommonTunnelPort exampleConfig ∧
      (∃ old, getPort exampleConfig .webSocket = some old ∧
        setPort c1 .webSocket old = some exampleConfig) ∧
      unchangedExceptPort .webSocket exampleConfig c1 :=
  ⟨_, rfl,
   ((listener_ports_independent exampleConfig .webSocket 20000 0).2.2.1 _ rfl).1,
   ((listener_ports_independent exampleConfig .webSocket 20000 0).2.2.1 _ rfl).2.1 .quic
     (by decide),
   ((listener_ports_independent exampleConfig .webSocket 20000 0).2.2.1 _ rfl).2.1 .https
     (by decide),
   ((listener_ports_independent exampleConfig .webSocket 20000 0).2.2.1 _ rfl).2.1 .tunnel
     (by decide),
   ((listener_ports_independent exampleConfig .webSocket 20000 0).2.2.1 _ rfl).2.1 .stream
     (by decide),
   ((listener_ports_independent exampleConfig .webSocket 20000 0).2.2.1 _ rfl).2.2.1,
   ((listener_ports_independent exampleConfig .webSocket 20000 0).2.2.1 _ rfl).2.2.2.1,
   ((listener_ports_independent exampleConfig .webSocket 20000 0).2.2.1 _ rfl).2.2.2.2⟩

/-! ## JSON keys of KubeAPIConfig -/

/-- C9: the field Master of KubeAPIConfig is declared with the JSON key
"master" and without omitempty, and for every KubeAPIConfig the key "master"
is among the keys of its serialisation; the zero value, whose Master is the
empty string, serialises with the keys "master" and "kubeConfig" only. -/
theorem kubeAPIConfig_master_key_present (k : KubeAPIConfig) :
    declKubeAPIConfig.fields.filter (fun f => f.name == "Master")
      = [⟨"Master", "string", "master", false, false⟩] ∧
    "master" ∈ k.jsonKeys ∧
    KubeAPIConfig.zero.jsonKeys = ["master", "kubeConfig"] := by
  refine ⟨by decide, ?_, by decide⟩
  simp [KubeAPIConfig.jsonKeys, declKubeAPIConfig, req, opt, FieldDecl.marked, emitKey,
    KubeAPIConfig.isEmptyField]

/-! ## Fields marked +Required -/

/-- C10, as stated, fails: the zero value of CloudCoreConfig has nil
CommonConfig, KubeAPIConfig and Modules, and the zero value of CloudHub has
nil WebSocket and HTTPS; so not every CloudCoreConfig and not every CloudHub
has its +Required fields non-nil. -/
theorem required_fields_may_be_nil :
    CloudCoreConfig.zero.CommonConfig.isSome = false ∧
    CloudCoreConfig.zero.KubeAPIConfig.isSome = false ∧
    CloudCoreConfig.zero.Modules.isSome = false ∧
    CloudHub.zero.WebSocket.isSome = false ∧
    CloudHub.zero.HTTPS.isSome = false ∧
    ¬ (∀ c : CloudCoreConfig, c.requiredPresent = true) ∧
    ¬ (∀ h : CloudHub, h.requiredPresent = true) := by
  refine ⟨rfl, rfl, rfl, rfl, rfl, ?_, ?_⟩
  · intro h
    exact absurd (h CloudCoreConfig.zero) (by decide)
  · intro h
    exact absurd (h CloudHub.zero) (by decide)

/-- C10, amended: the fields marked +Required are CommonConfig, KubeAPIConfig
and Modules of CloudCoreConfig, KubeConfig of KubeAPIConfig, and WebSocket and
HTTPS of CloudHub; those of CloudCoreConfig and CloudHub have pointer types,
which admit nil, and are non-nil in a value exactly when they have been set:
they are all non-nil if and only if each of them holds a value, and assigning
non-nil values to them makes them present whatever the other fields hold. -/
theorem required_fields_present_iff_set (c : CloudCoreConfig) (h : CloudHub) :
    requiredFields
      = [(("CloudCoreConfig", "CommonConfig"), "*CommonConfig"),
         (("CloudCoreConfig", "KubeAPIConfig"), "*KubeAPIConfig"),
         (("CloudCoreConfig", "Modules"), "*Modules"),
         (("KubeAPIConfig", "KubeConfig"), "string"),
         (("CloudHub", "WebSocket"), "*CloudHubWebSocket"),
         (("CloudHub", "HTTPS"), "*CloudHubHTTPS")] ∧
    (c.requiredPresent = true ↔
      ∃ cc k m, c.CommonConfig = some cc ∧ c.KubeAPIConfig = some k ∧ c.Modules = some m) ∧
    (h.requiredPresent = true ↔ ∃ w s, h.WebSocket = some w ∧ h.HTTPS = some s) ∧
    (∀ cc k m, CloudCoreConfig.requiredPresent
      { c with CommonConfig := some cc, KubeAPIConfig := some k, Modules := some m } = true) ∧
    (∀ w s, CloudHub.requiredPresent { h with WebSocket := some w, HTTPS := some s } = true) := by
  refine ⟨by decide, ?_, ?_, fun _ _ _ => rfl, fun _ _ => rfl⟩
  · simp only [CloudCoreConfig.requiredPresent, Bool.and_eq_true, Option.isSome_iff_exists]
    constructor
    · rintro ⟨⟨⟨cc, hcc⟩, ⟨k, hk⟩⟩, ⟨m, hm⟩⟩
      exact ⟨cc, k, m, hcc, hk, hm⟩
    · rintro ⟨cc, k, m, hcc, hk, hm⟩
      exact ⟨⟨⟨cc, hcc⟩, ⟨k, hk⟩⟩, ⟨m, hm⟩⟩
  · simp only [CloudHub.requiredPresent, Bool.and_eq_true, Option.isSome_iff_exists]
    constructor
    · rintro ⟨⟨w, hw⟩, ⟨s, hs⟩⟩
      exact ⟨w, s, hw, hs⟩
    · rintro ⟨w, s, hw, hs⟩
      exact ⟨⟨w, hw⟩, ⟨s, hs⟩⟩

/-! ## JSON keys are distinct within each struct -/

/-- C11: for every struct type of the schema, the JSON keys of its fields
(with, for CloudCoreConfig, the keys of the embedded TypeMeta) are pairwise
distinct, also when compared ignoring letter case, and the key of each field
names that field and no other field of the struct. -/
theorem json_keys_distinct_per_struct :
    schema.length = 30 ∧
    (∀ s ∈ schema, (objectKeys s).Nodup) ∧
    (∀ s ∈ schema, ((objectKeys s).map lowerKey).Nodup) ∧
    (∀ s ∈ schema, ∀ f ∈ s.fields, fieldsNamedBy s f.jsonKey = [f]) := by
  refine ⟨by decide, by decide, by decide, by decide⟩

/-- Instance of C11: the keys of EdgeControllerLoad, three of which start with
a capital letter, are pairwise distinct when case is ignored, and the key
CreatePodWorks names the field CreatePodWorks only. -/
theorem json_keys_distinct_edgeControllerLoad :
    ((objectKeys declEdgeControllerLoad).map lowerKey).Nodup ∧
    fieldsNamedBy declEdgeControllerLoad "CreatePodWorks"
      = [⟨"CreatePodWorks", "int32", "CreatePodWorks", true, false⟩] :=
  ⟨json_keys_distinct_per_struct.2.2.1 declEdgeControllerLoad (by decide),
   json_keys_distinct_per_struct.2.2.2 declEdgeControllerLoad (by decide)
     ⟨"CreatePodWorks", "int32", "CreatePodWorks", true, false⟩ (by decide)⟩

end CloudCore
